import Mathlib

/-!
# trivy-webhook-aws-security-hub: a shallow embedding of `main.go`

The webhook receives a Trivy operator report, maps its checks or
vulnerabilities to AWS Security Hub findings and imports them in batches of 100.

Modelling conventions.

* A Go `string` is a sequence of bytes: `len` is the number of bytes and `s[:n]`
  keeps the first `n` bytes.
* A Go function returning `(value, error)` returns a `GoResult`; a run-time
  panic (an index out of range) is the third outcome, `GoResult.panic`.
* Library calls (`json.Unmarshal`, `config.LoadDefaultConfig`,
  `sts.GetCallerIdentity`, `time.Now`, `securityhub.BatchImportFindings`, the
  `%f` verb) are fields of `Env`. The ones that talk to the outside world take
  the current `World`, so that their answers may change from call to call.
* The `World` carries the trace of library calls made so far (plus the entry of
  the exporter) and the number of clock readings. `log.Printf` output is not
  part of the model.
-/

set_option autoImplicit false

namespace TrivyWebhook

/-! ## Strings and results -/

/-- A Go string, as its bytes. -/
abbrev GoString := List (Fin 256)

/-- The bytes of a string literal of the source (every literal of `main.go` is ASCII). -/
def str (s : String) : GoString := s.toList.map (fun c => Fin.ofNat c.toNat)

/-- A Go `error`, as its message. -/
abbrev GoError := String

/-- Outcome of a Go function with the result type `(α, error)`. -/
inductive GoResult (α : Type) where
  | ok (val : α)
  | err (e : GoError)
  | panic (msg : String)
  deriving DecidableEq, Repr

/-- The message of the run-time panic raised by `s[0]` on an empty slice. -/
def indexPanic : String := "runtime error: index out of range [0] with length 0"

/-! ## Reports (the fields of the `v1alpha1` types that `main.go` reads) -/

/-- The envelope decoded first: `type webhook struct`. -/
structure webhook where
  Kind : GoString
  APIVersion : GoString
  deriving DecidableEq, Repr

/-- Feature flags: `type Config struct`. -/
structure Config where
  InfraAssessmentEnable : Bool
  ConfigAuditEnable : Bool
  ClusterComplianceEnable : Bool
  VulnerabilityEnable : Bool
  deriving DecidableEq, Repr

structure OwnerReference where
  Kind : GoString
  Name : GoString
  deriving DecidableEq, Repr

structure Check where
  ID : GoString
  Title : GoString
  Description : GoString
  Severity : GoString
  Remediation : GoString
  Messages : List GoString
  deriving DecidableEq, Repr

structure ConfigAuditReportData where
  Checks : List Check
  deriving DecidableEq, Repr

structure ConfigAuditReport where
  Name : GoString
  OwnerReferences : List OwnerReference
  Report : ConfigAuditReportData
  deriving DecidableEq, Repr

structure InfraAssessmentReportData where
  Checks : List Check
  deriving DecidableEq, Repr

structure InfraAssessmentReport where
  Name : GoString
  Report : InfraAssessmentReportData
  deriving DecidableEq, Repr

structure ClusterComplianceReport where
  Name : GoString
  Spec : GoString
  Status : GoString
  deriving DecidableEq, Repr

/-- A `float64`, as its IEEE-754 bit pattern; only ever passed to the `%f` verb. -/
abbrev Float64 := Nat

structure Vulnerability where
  VulnerabilityID : GoString
  Resource : GoString
  InstalledVersion : GoString
  FixedVersion : GoString
  Severity : GoString
  Title : GoString
  Description : GoString
  PrimaryLink : GoString
  Score : Option Float64
  deriving DecidableEq, Repr

structure Registry where
  Server : GoString
  deriving DecidableEq, Repr

structure Artifact where
  Repository : GoString
  Digest : GoString
  Tag : GoString
  deriving DecidableEq, Repr

structure VulnerabilityReportData where
  Registry : Registry
  Artifact : Artifact
  Vulnerabilities : List Vulnerability
  deriving DecidableEq, Repr

structure VulnerabilityReport where
  Name : GoString
  Labels : List (GoString × GoString)
  Report : VulnerabilityReportData
  deriving DecidableEq, Repr

/-! ## Findings (the fields of `types.AwsSecurityFinding` that `main.go` sets) -/

structure Severity where
  Label : GoString
  deriving DecidableEq, Repr

structure Recommendation where
  Text : GoString
  Url : Option GoString
  deriving DecidableEq, Repr

structure Remediation where
  Recommendation : Recommendation
  deriving DecidableEq, Repr

structure ResourceDetails where
  Other : List (GoString × GoString)
  deriving DecidableEq, Repr

structure Resource where
  Type' : GoString
  Id : GoString
  Partition : GoString
  Region : GoString
  Details : ResourceDetails
  deriving DecidableEq, Repr

structure AwsSecurityFinding where
  SchemaVersion : GoString
  Id : GoString
  ProductArn : GoString
  GeneratorId : GoString
  AwsAccountId : GoString
  Types : List GoString
  CreatedAt : GoString
  UpdatedAt : GoString
  Severity : Severity
  Title : GoString
  Description : GoString
  Remediation : Remediation
  ProductFields : List (GoString × GoString)
  Resources : List Resource
  RecordState : GoString
  deriving DecidableEq, Repr

/-- The constant `types.PartitionAws`. -/
def PartitionAws : GoString := str "aws"

/-- The constant `types.RecordStateActive`. -/
def RecordStateActive : GoString := str "ACTIVE"

/-! ## The outside world -/

/-- What a `json.Unmarshal` or `json.MarshalIndent` call works on. -/
inductive Target where
  | webhook
  | configAuditReport
  | infraAssessmentReport
  | clusterComplianceReport
  | vulnerabilityReport
  deriving DecidableEq, Repr

/-- One observable step of a request. -/
inductive Event where
  | unmarshal (into : Target)
  | marshalIndent (of : Target)
  | loadDefaultConfig
  | getCallerIdentity
  | importFindings (findings : List AwsSecurityFinding)
  | batchImportFindings (batch : List AwsSecurityFinding)
  deriving DecidableEq, Repr

structure World where
  trace : List Event
  clock : Nat
  deriving DecidableEq, Repr

/-- The world after one more event. -/
def World.record (w : World) (e : Event) : World :=
  { w with trace := w.trace ++ [e] }

/-- The world after one more reading of the clock. -/
def World.tick (w : World) : World :=
  { w with clock := w.clock + 1 }

structure AwsConfig where
  Region : GoString
  deriving DecidableEq, Repr

structure CallerIdentity where
  Account : Option GoString
  deriving DecidableEq, Repr

/-- The library calls of `main.go`. -/
structure Env where
  unmarshalWebhook : GoString → Except GoError webhook
  unmarshalConfigAuditReport : GoString → Except GoError ConfigAuditReport
  unmarshalInfraAssessmentReport : GoString → Except GoError InfraAssessmentReport
  unmarshalClusterComplianceReport : GoString → Except GoError ClusterComplianceReport
  unmarshalVulnerabilityReport : GoString → Except GoError VulnerabilityReport
  marshalIndentInfraAssessmentReport : InfraAssessmentReport → Except GoError GoString
  marshalIndentClusterComplianceReport : ClusterComplianceReport → Except GoError GoString
  loadDefaultConfig : World → Except GoError AwsConfig
  getCallerIdentity : World → AwsConfig → Except GoError CallerIdentity
  timeNow : World → GoString
  sprintfFloat : Float64 → GoString
  batchImportFindings : World → List AwsSecurityFinding → Except GoError Unit

/-- The function `aws.ToString`: the empty string for a nil pointer. -/
def awsToString : Option GoString → GoString
  | some s => s
  | none => []

/-! ## The mappers -/

/-- The statement `if len(description) > 1024 { description = description[:1021] + "..." }`,
which both mappers apply to the description (lines 180-182 and 326-328). -/
def truncateDescription (description : GoString) : GoString :=
  if description.length > 1024 then description.take 1021 ++ str "..." else description

/-- The statement `if severity == "UNKNOWN" { severity = "INFORMATIONAL" }` of both
mappers (lines 174-176 and 316-318). -/
def severityLabel (severity : GoString) : GoString :=
  if severity = str "UNKNOWN" then str "INFORMATIONAL" else severity

/-- The finding appended for one check (lines 184-216), given the two clock
readings and `check.Messages[0]`. -/
def configAuditFinding (AWSAccountID AWSRegion ProductArn Name : GoString) (check : Check)
    (createdAt updatedAt message : GoString) : AwsSecurityFinding :=
  let severity := severityLabel check.Severity
  let description := truncateDescription check.Description
  { SchemaVersion := str "2018-10-08"
    Id := check.ID ++ str "-" ++ Name
    ProductArn := ProductArn
    GeneratorId := str "Trivy/" ++ check.ID
    AwsAccountId := AWSAccountID
    Types := [str "Software and Configuration Checks"]
    CreatedAt := createdAt
    UpdatedAt := updatedAt
    Severity := { Label := severity }
    Title := str "Trivy found a misconfiguration in " ++ Name ++ str ": " ++ check.Title
    Description := description
    Remediation := { Recommendation := { Text := check.Remediation, Url := none } }
    ProductFields := [(str "Product Name", str "Trivy")]
    Resources :=
      [{ Type' := str "Other"
         Id := Name
         Partition := PartitionAws
         Region := AWSRegion
         Details := { Other := [(str "Message", message)] } }]
    RecordState := RecordStateActive }

/-- The loop `for _, check := range configAuditReport.Report.Checks` (lines 172-217).
Building the finding reads the clock twice and then indexes `check.Messages[0]`,
which panics when the check has no message. -/
def configAuditChecks (env : Env) (AWSAccountID AWSRegion ProductArn Name : GoString) :
    List Check → List AwsSecurityFinding → World → GoResult (List AwsSecurityFinding) × World
  | [], findings, w => (.ok findings, w)
  | check :: rest, findings, w =>
    let createdAt := env.timeNow w
    let w1 := w.tick
    let updatedAt := env.timeNow w1
    let w2 := w1.tick
    match check.Messages with
    | [] => (.panic indexPanic, w2)
    | message :: _ =>
      configAuditChecks env AWSAccountID AWSRegion ProductArn Name rest
        (findings ++
          [configAuditFinding AWSAccountID AWSRegion ProductArn Name check createdAt updatedAt
            message])
        w2

/-- The function `getConfigAuditReportFindings` (lines 139-220). -/
def getConfigAuditReportFindings (env : Env) (body : GoString) (w : World) :
    GoResult (List AwsSecurityFinding) × World :=
  let w1 := w.record (.unmarshal .configAuditReport)
  match env.unmarshalConfigAuditReport body with
  | .error e => (.err ("error decoding JSON: " ++ e), w1)
  | .ok configAuditReport =>
    let w2 := w1.record .loadDefaultConfig
    match env.loadDefaultConfig w1 with
    | .error e => (.err ("unable to load SDK config: " ++ e), w2)
    | .ok cfg =>
      let w3 := w2.record .getCallerIdentity
      match env.getCallerIdentity w2 cfg with
      | .error e => (.err ("failed to get caller identity: " ++ e), w3)
      | .ok callerIdentity =>
        let AWSAccountID := awsToString callerIdentity.Account
        let AWSRegion := cfg.Region
        let ProductArn :=
          str "arn:aws:securityhub:" ++ AWSRegion ++ str "::product/aquasecurity/aquasecurity"
        match configAuditReport.OwnerReferences with
        | [] => (.panic indexPanic, w3)
        | owner :: _ =>
          let Name := owner.Kind ++ str "/" ++ owner.Name
          configAuditChecks env AWSAccountID AWSRegion ProductArn Name
            configAuditReport.Report.Checks [] w3

/-- The function `getInfraAssessmentReport` (lines 222-244). -/
def getInfraAssessmentReport (env : Env) (body : GoString) (w : World) :
    GoResult (List AwsSecurityFinding) × World :=
  let w1 := w.record (.unmarshal .infraAssessmentReport)
  match env.unmarshalInfraAssessmentReport body with
  | .error e => (.err ("error decoding JSON: " ++ e), w1)
  | .ok infraAssessmentReport =>
    let w2 := w1.record (.marshalIndent .infraAssessmentReport)
    match env.marshalIndentInfraAssessmentReport infraAssessmentReport with
    | .error e => (.err ("error encoding JSON: " ++ e), w2)
    | .ok _ => (.ok [], w2)

/-- The function `getClusterComplianceReport` (lines 246-268). -/
def getClusterComplianceReport (env : Env) (body : GoString) (w : World) :
    GoResult (List AwsSecurityFinding) × World :=
  let w1 := w.record (.unmarshal .clusterComplianceReport)
  match env.unmarshalClusterComplianceReport body with
  | .error e => (.err ("error decoding JSON: " ++ e), w1)
  | .ok clusterComplianceReport =>
    let w2 := w1.record (.marshalIndent .clusterComplianceReport)
    match env.marshalIndentClusterComplianceReport clusterComplianceReport with
    | .error e => (.err ("error encoding JSON: " ++ e), w2)
    | .ok _ => (.ok [], w2)

/-- The function `tools.GetVulnScore`: the score, or 0.0 (all bits zero) when absent. -/
def GetVulnScore (d : Vulnerability) : Float64 :=
  match d.Score with
  | some score => score
  | none => 0

/-- A Go map lookup `m[key]` on a `map[string]string`: the empty string when the
key is absent. -/
def mapIndex (m : List (GoString × GoString)) (key : GoString) : GoString :=
  match m.lookup key with
  | some v => v
  | none => []

/-- The finding appended for one vulnerability (lines 315-370), given the two
clock readings. -/
def vulnerabilityFinding (env : Env)
    (AWSAccountID AWSRegion ProductArn Container Tag FullImageName ImageName : GoString)
    (vulnerabilities : Vulnerability) (createdAt updatedAt : GoString) : AwsSecurityFinding :=
  let severity := severityLabel vulnerabilities.Severity
  let description :=
    if vulnerabilities.Description = [] then vulnerabilities.Title
    else vulnerabilities.Description
  let description := truncateDescription description
  { SchemaVersion := str "2018-10-08"
    Id := FullImageName ++ str "-" ++ vulnerabilities.VulnerabilityID
    ProductArn := ProductArn
    GeneratorId := str "Trivy/" ++ vulnerabilities.VulnerabilityID
    AwsAccountId := AWSAccountID
    Types := [str "Software and Configuration Checks/Vulnerabilities/CVE"]
    CreatedAt := createdAt
    UpdatedAt := updatedAt
    Severity := { Label := severity }
    Title :=
      ImageName ++ str "/" ++ Container ++ str ":" ++ Tag ++ str " "
        ++ vulnerabilities.VulnerabilityID
    Description := description
    Remediation :=
      { Recommendation :=
          { Text := str "Upgrade to version " ++ vulnerabilities.FixedVersion
            Url := some vulnerabilities.PrimaryLink } }
    ProductFields := [(str "Product Name", str "Trivy")]
    Resources :=
      [{ Type' := str "Container"
         Id := ImageName
         Partition := PartitionAws
         Region := AWSRegion
         Details :=
           { Other :=
               [(str "Container Image", ImageName),
                (str "CVE ID", vulnerabilities.VulnerabilityID),
                (str "CVE Title", vulnerabilities.Title),
                (str "PkgName", vulnerabilities.Resource),
                (str "Installed Package", vulnerabilities.InstalledVersion),
                (str "Patched Package", vulnerabilities.FixedVersion),
                (str "NvdCvssScoreV3", env.sprintfFloat (GetVulnScore vulnerabilities)),
                (str "NvdCvssVectorV3", [])] } }]
    RecordState := RecordStateActive }

/-- The loop `for _, vulnerabilities := range vulnerabilityReport.Report.Vulnerabilities`
(lines 314-371). -/
def vulnerabilityEntries (env : Env)
    (AWSAccountID AWSRegion ProductArn Container Tag FullImageName ImageName : GoString) :
    List Vulnerability → List AwsSecurityFinding → World → List AwsSecurityFinding × World
  | [], findings, w => (findings, w)
  | vulnerabilities :: rest, findings, w =>
    let createdAt := env.timeNow w
    let w1 := w.tick
    let updatedAt := env.timeNow w1
    let w2 := w1.tick
    vulnerabilityEntries env AWSAccountID AWSRegion ProductArn Container Tag FullImageName
      ImageName rest
      (findings ++
        [vulnerabilityFinding env AWSAccountID AWSRegion ProductArn Container Tag FullImageName
          ImageName vulnerabilities createdAt updatedAt])
      w2

/-- The image reference `FullImageName` (lines 301-306): first set to the digest form,
then overwritten by the tag form when the digest is empty. -/
def fullImageName (Registry Repository Digest Tag : GoString) : GoString :=
  let FullImageName := Registry ++ str "/" ++ Repository ++ str "@" ++ Digest
  if Digest = [] then Registry ++ str "/" ++ Repository ++ str ":" ++ Tag
  else FullImageName

/-- The function `getVulnerabilityReportFindings` (lines 270-374). -/
def getVulnerabilityReportFindings (env : Env) (body : GoString) (w : World) :
    GoResult (List AwsSecurityFinding) × World :=
  let w1 := w.record (.unmarshal .vulnerabilityReport)
  match env.unmarshalVulnerabilityReport body with
  | .error e => (.err ("error decoding JSON: " ++ e), w1)
  | .ok vulnerabilityReport =>
    let w2 := w1.record .loadDefaultConfig
    match env.loadDefaultConfig w1 with
    | .error e => (.err ("unable to load SDK config: " ++ e), w2)
    | .ok cfg =>
      let w3 := w2.record .getCallerIdentity
      match env.getCallerIdentity w2 cfg with
      | .error e => (.err ("failed to get caller identity: " ++ e), w3)
      | .ok callerIdentity =>
        let AWSAccountID := awsToString callerIdentity.Account
        let AWSRegion := cfg.Region
        let ProductArn :=
          str "arn:aws:securityhub:" ++ AWSRegion ++ str "::product/aquasecurity/aquasecurity"
        let Container := mapIndex vulnerabilityReport.Labels (str "trivy-operator.container.name")
        let Registry := vulnerabilityReport.Report.Registry.Server
        let Repository := vulnerabilityReport.Report.Artifact.Repository
        let Digest := vulnerabilityReport.Report.Artifact.Digest
        let Tag := vulnerabilityReport.Report.Artifact.Tag
        let FullImageName := fullImageName Registry Repository Digest Tag
        let ImageName := Registry ++ str "/" ++ Repository
        match vulnerabilityEntries env AWSAccountID AWSRegion ProductArn Container Tag
            FullImageName ImageName vulnerabilityReport.Report.Vulnerabilities [] w3 with
        | (findings, w4) => (.ok findings, w4)

/-! ## The exporter -/

/-- The slice `batch := findings[i:end]` of lines 387-392, where `end` is `i + 100`
capped at `len(findings)`. -/
def batchAt (findings : List AwsSecurityFinding) (i : Nat) : List AwsSecurityFinding :=
  let end' := if i + 100 > findings.length then findings.length else i + 100
  (findings.take end').drop i

/-- The loop `for i := 0; i < len(findings); i += batchSize` (lines 386-403), from
index `i` on. -/
def importBatches (env : Env) (findings : List AwsSecurityFinding) (i : Nat) (w : World) :
    GoResult Unit × World :=
  if i < findings.length then
    let batch := batchAt findings i
    let w1 := w.record (.batchImportFindings batch)
    match env.batchImportFindings w batch with
    | .error e => (.err ("error importing findings to Security Hub: " ++ e), w1)
    | .ok _ => importBatches env findings (i + 100) w1
  else (.ok (), w)
termination_by findings.length - i
decreasing_by omega

/-- The function `importFindingsToSecurityHub` (lines 377-407). -/
def importFindingsToSecurityHub (env : Env) (findings : List AwsSecurityFinding) (w : World) :
    GoResult Unit × World :=
  let w0 := w.record (.importFindings findings)
  let w1 := w0.record .loadDefaultConfig
  match env.loadDefaultConfig w0 with
  | .error e => (.err ("unable to load SDK config: " ++ e), w1)
  | .ok _ => importBatches env findings 0 w1

/-! ## The handler -/

/-- An incoming request: what `io.ReadAll(r.Body)` returns. -/
structure Request where
  readAll : Except GoError GoString

/-- What the handler wrote to the `http.ResponseWriter`. -/
structure Response where
  status : Nat
  body : String
  deriving DecidableEq, Repr

/-- How a run of the handler ends: with a response, or with a panic that leaves the
handler before anything is written. -/
inductive Outcome where
  | response (r : Response)
  | panic (msg : String)
  deriving DecidableEq, Repr

def StatusOK : Nat := 200
def StatusBadRequest : Nat := 400
def StatusInternalServerError : Nat := 500

/-- The function `http.Error`: the status code and the message followed by a newline. -/
def httpError (msg : String) (code : Nat) : Response :=
  { status := code, body := msg ++ "\n" }

/-- The end of the handler (lines 121-135): export the findings and answer. -/
def sendFindings (env : Env) (findings : List AwsSecurityFinding) (w : World) :
    Outcome × World :=
  match importFindingsToSecurityHub env findings w with
  | (.err _, w1) =>
    (.response (httpError "Error importing findings to Security Hub" StatusInternalServerError),
      w1)
  | (.panic msg, w1) => (.panic msg, w1)
  | (.ok _, w1) =>
    (.response
        { status := StatusOK, body := "Vulnerabilities processed and imported to Security Hub" },
      w1)

/-- One enabled `case` of the switch (for instance lines 81-86): a mapper error is
answered with a 500, a panic leaves the handler, findings go on to the exporter. -/
def processReport (env : Env) (mapped : GoResult (List AwsSecurityFinding) × World) :
    Outcome × World :=
  match mapped with
  | (.err _, w1) =>
    (.response (httpError "Error processing report" StatusInternalServerError), w1)
  | (.panic msg, w1) => (.panic msg, w1)
  | (.ok findings, w1) => sendFindings env findings w1

/-- The handler returned by `ProcessTrivyWebhook(cfg)` (lines 51-136). -/
def ProcessTrivyWebhook (env : Env) (cfg : Config) (r : Request) (w : World) :
    Outcome × World :=
  match r.readAll with
  | .error _ => (.response (httpError "Error reading request body" StatusBadRequest), w)
  | .ok body =>
    if body.length = 0 then
      (.response (httpError "Empty request body" StatusBadRequest), w)
    else
      let w1 := w.record (.unmarshal .webhook)
      match env.unmarshalWebhook body with
      | .error _ => (.response (httpError "Invalid JSON" StatusBadRequest), w1)
      | .ok report =>
        if report.Kind = str "ConfigAuditReport" then
          if cfg.ConfigAuditEnable then
            processReport env (getConfigAuditReportFindings env body w1)
          else sendFindings env [] w1
        else if report.Kind = str "InfraAssessmentReport" then
          if cfg.InfraAssessmentEnable then
            processReport env (getInfraAssessmentReport env body w1)
          else sendFindings env [] w1
        else if report.Kind = str "ClusterComplianceReport" then
          if cfg.ClusterComplianceEnable then
            processReport env (getClusterComplianceReport env body w1)
          else sendFindings env [] w1
        else if report.Kind = str "VulnerabilityReport" then
          if cfg.VulnerabilityEnable then
            processReport env (getVulnerabilityReportFindings env body w1)
          else sendFindings env [] w1
        else (.response (httpError "unknown report type" StatusBadRequest), w1)



/-! ## UTF-8 -/

/-- Where a UTF-8 validator is between two bytes: at a character boundary (`start`),
or inside a character with one, two or three plain continuation bytes to come, or
right after a lead byte that restricts the next byte (E0, ED, F0, F4). -/
inductive Utf8State where
  | start
  | tail1
  | tail2
  | tail3
  | afterE0
  | afterED
  | afterF0
  | afterF4
  deriving DecidableEq, Repr

/-- One byte of well-formed UTF-8 (RFC 3629, as Go's `utf8.ValidString` accepts it: no
overlong form, no surrogate, nothing above U+10FFFF); `none` when the byte cannot
come in this state. -/
def utf8Step : Utf8State → Fin 256 → Option Utf8State
  | .start, b =>
    if b.val < 0x80 then some .start
    else if 0xC2 ≤ b.val ∧ b.val ≤ 0xDF then some .tail1
    else if b.val = 0xE0 then some .afterE0
    else if (0xE1 ≤ b.val ∧ b.val ≤ 0xEC) ∨ b.val = 0xEE ∨ b.val = 0xEF then some .tail2
    else if b.val = 0xED then some .afterED
    else if b.val = 0xF0 then some .afterF0
    else if 0xF1 ≤ b.val ∧ b.val ≤ 0xF3 then some .tail3
    else if b.val = 0xF4 then some .afterF4
    else none
  | .tail1, b => if 0x80 ≤ b.val ∧ b.val ≤ 0xBF then some .start else none
  | .tail2, b => if 0x80 ≤ b.val ∧ b.val ≤ 0xBF then some .tail1 else none
  | .tail3, b => if 0x80 ≤ b.val ∧ b.val ≤ 0xBF then some .tail2 else none
  | .afterE0, b => if 0xA0 ≤ b.val ∧ b.val ≤ 0xBF then some .tail1 else none
  | .afterED, b => if 0x80 ≤ b.val ∧ b.val ≤ 0x9F then some .tail1 else none
  | .afterF0, b => if 0x90 ≤ b.val ∧ b.val ≤ 0xBF then some .tail2 else none
  | .afterF4, b => if 0x80 ≤ b.val ∧ b.val ≤ 0x8F then some .tail2 else none

/-- The state after the bytes of `s`, read from the state `st`. -/
def utf8Run : Utf8State → GoString → Option Utf8State
  | st, [] => some st
  | st, b :: bs =>
    match utf8Step st b with
    | some st' => utf8Run st' bs
    | none => none

/-- The string is well-formed UTF-8: reading it from a character boundary ends at a
character boundary. -/
def ValidString (s : GoString) : Bool :=
  utf8Run .start s = some .start

/-! ## Observations on a trace -/

/-- The batches handed to `BatchImportFindings`, in the order of the calls. -/
def submittedBatches (trace : List Event) : List (List AwsSecurityFinding) :=
  trace.filterMap fun
    | .batchImportFindings batch => some batch
    | _ => none

/-- The world the loop of the exporter is in after `j` accepted batches, when it was
entered in `w`: the trace has grown by the first `j` batches. -/
def worldAfterBatches (w : World) (findings : List AwsSecurityFinding) (j : Nat) : World :=
  { w with
    trace := w.trace ++
      (List.range j).map fun m => Event.batchImportFindings (batchAt findings (100 * m)) }

/-! ## Sample inputs -/

def sampleWorld : World := { trace := [], clock := 0 }

/-- A description of 1030 bytes. -/
def longDescription : GoString := List.replicate 1030 97

def longCheck : Check :=
  { ID := str "KSV001"
    Title := str "Process can elevate its own privileges"
    Description := longDescription
    Severity := str "UNKNOWN"
    Remediation := str "Set allowPrivilegeEscalation to false"
    Messages := [str "container web should set allowPrivilegeEscalation", str "second"] }

def highCheck : Check :=
  { ID := str "KSV012"
    Title := str "Runs as root user"
    Description := str "short"
    Severity := str "HIGH"
    Remediation := str "Set runAsNonRoot to true"
    Messages := [str "container web should set runAsNonRoot"] }

/-- A check whose list of messages is empty. -/
def silentCheck : Check :=
  { ID := str "KSV020"
    Title := str "Runs with low user ID"
    Description := str "short"
    Severity := str "LOW"
    Remediation := str "Set runAsUser above 10000"
    Messages := [] }

def sampleConfigAuditReport : ConfigAuditReport :=
  { Name := str "replicaset-web"
    OwnerReferences := [{ Kind := str "ReplicaSet", Name := str "web" }]
    Report := { Checks := [longCheck, highCheck] } }

def titleOnlyVulnerability : Vulnerability :=
  { VulnerabilityID := str "CVE-2024-0001"
    Resource := str "openssl"
    InstalledVersion := str "3.0.1"
    FixedVersion := str "3.0.2"
    Severity := str "UNKNOWN"
    Title := str "openssl: overflow"
    Description := []
    PrimaryLink := str "https://avd.aquasec.com/nvd/cve-2024-0001"
    Score := none }

def longVulnerability : Vulnerability :=
  { VulnerabilityID := str "CVE-2024-0002"
    Resource := str "zlib"
    InstalledVersion := str "1.2.11"
    FixedVersion := []
    Severity := str "CRITICAL"
    Title := str "zlib: heap overflow"
    Description := longDescription
    PrimaryLink := str "https://avd.aquasec.com/nvd/cve-2024-0002"
    Score := some 4619567317775286272 }

def sampleVulnerabilityReport : VulnerabilityReport :=
  { Name := str "replicaset-web-nginx"
    Labels := [(str "trivy-operator.container.name", str "nginx")]
    Report :=
      { Registry := { Server := str "index.docker.io" }
        Artifact := { Repository := str "library/nginx", Digest := str "sha256:ab", Tag := str "1.25" }
        Vulnerabilities := [titleOnlyVulnerability, longVulnerability] } }

/-- An environment in which every library call succeeds; the envelope of the body
carries the given kind. -/
def sampleEnv (kind : GoString) : Env :=
  { unmarshalWebhook := fun _ => .ok { Kind := kind, APIVersion := str "aquasecurity.github.io/v1alpha1" }
    unmarshalConfigAuditReport := fun _ => .ok sampleConfigAuditReport
    unmarshalInfraAssessmentReport := fun _ =>
      .ok { Name := str "infra", Report := { Checks := [highCheck] } }
    unmarshalClusterComplianceReport := fun _ =>
      .ok { Name := str "cis", Spec := str "spec", Status := str "status" }
    unmarshalVulnerabilityReport := fun _ => .ok sampleVulnerabilityReport
    marshalIndentInfraAssessmentReport := fun _ => .ok (str "report")
    marshalIndentClusterComplianceReport := fun _ => .ok (str "report")
    loadDefaultConfig := fun _ => .ok { Region := str "eu-west-1" }
    getCallerIdentity := fun _ _ => .ok { Account := some (str "123456789012") }
    timeNow := fun _ => str "2024-01-01T00:00:00Z"
    sprintfFloat := fun _ => str "7.500000"
    batchImportFindings := fun _ _ => .ok () }

/-- A request whose body is the given bytes. -/
def requestWith (body : GoString) : Request := { readAll := .ok body }

/-- Some non-empty body. -/
def sampleBody : GoString := str "body"

/-- The findings of `sampleConfigAuditReport` in `sampleEnv`. -/
def sampleConfigAuditFindings : List AwsSecurityFinding :=
  [configAuditFinding (str "123456789012") (str "eu-west-1")
      (str "arn:aws:securityhub:eu-west-1::product/aquasecurity/aquasecurity")
      (str "ReplicaSet/web") longCheck (str "2024-01-01T00:00:00Z")
      (str "2024-01-01T00:00:00Z") (str "container web should set allowPrivilegeEscalation"),
   configAuditFinding (str "123456789012") (str "eu-west-1")
      (str "arn:aws:securityhub:eu-west-1::product/aquasecurity/aquasecurity")
      (str "ReplicaSet/web") highCheck (str "2024-01-01T00:00:00Z")
      (str "2024-01-01T00:00:00Z") (str "container web should set runAsNonRoot")]

/-- The findings of `sampleVulnerabilityReport` in `sampleEnv`. -/
def sampleVulnerabilityFindings : List AwsSecurityFinding :=
  [vulnerabilityFinding (sampleEnv []) (str "123456789012") (str "eu-west-1")
      (str "arn:aws:securityhub:eu-west-1::product/aquasecurity/aquasecurity")
      (str "nginx") (str "1.25") (str "index.docker.io/library/nginx@sha256:ab")
      (str "index.docker.io/library/nginx") titleOnlyVulnerability
      (str "2024-01-01T00:00:00Z") (str "2024-01-01T00:00:00Z"),
   vulnerabilityFinding (sampleEnv []) (str "123456789012") (str "eu-west-1")
      (str "arn:aws:securityhub:eu-west-1::product/aquasecurity/aquasecurity")
      (str "nginx") (str "1.25") (str "index.docker.io/library/nginx@sha256:ab")
      (str "index.docker.io/library/nginx") longVulnerability
      (str "2024-01-01T00:00:00Z") (str "2024-01-01T00:00:00Z")]

/-- A list of 250 findings: three batches, of 100, 100 and 50. -/
def manyFindings : List AwsSecurityFinding :=
  List.replicate 250
    (configAuditFinding (str "123456789012") (str "eu-west-1")
      (str "arn:aws:securityhub:eu-west-1::product/aquasecurity/aquasecurity")
      (str "ReplicaSet/web") highCheck (str "2024-01-01T00:00:00Z")
      (str "2024-01-01T00:00:00Z") (str "container web should set runAsNonRoot"))

/-- An environment whose sink rejects every batch that is not full. -/
def fullBatchesOnlyEnv : Env :=
  { sampleEnv [] with
    batchImportFindings := fun _ batch =>
      if batch.length = 100 then .ok () else .error "rejected" }

/-- A ConfigAuditReport with checks and without owner references. -/
def unownedConfigAuditReport : ConfigAuditReport :=
  { Name := str "orphan", OwnerReferences := [], Report := { Checks := [highCheck] } }

/-- A ConfigAuditReport with neither checks nor owner references. -/
def emptyUnownedConfigAuditReport : ConfigAuditReport :=
  { Name := str "orphan", OwnerReferences := [], Report := { Checks := [] } }

/-- A ConfigAuditReport with an owner reference and no checks. -/
def emptyConfigAuditReport : ConfigAuditReport :=
  { Name := str "replicaset-web"
    OwnerReferences := [{ Kind := str "ReplicaSet", Name := str "web" }]
    Report := { Checks := [] } }

/-- A ConfigAuditReport with an owner reference whose second check has no message. -/
def silentConfigAuditReport : ConfigAuditReport :=
  { Name := str "replicaset-web"
    OwnerReferences := [{ Kind := str "ReplicaSet", Name := str "web" }]
    Report := { Checks := [highCheck, silentCheck] } }

/-- A VulnerabilityReport without vulnerabilities. -/
def emptyVulnerabilityReport : VulnerabilityReport :=
  { Name := str "replicaset-web-nginx"
    Labels := []
    Report :=
      { Registry := { Server := str "index.docker.io" }
        Artifact := { Repository := str "library/nginx", Digest := [], Tag := str "1.25" }
        Vulnerabilities := [] } }

/-- The environment `sampleEnv` with another decoded ConfigAuditReport. -/
def configAuditEnv (rep : ConfigAuditReport) : Env :=
  { sampleEnv (str "ConfigAuditReport") with unmarshalConfigAuditReport := fun _ => .ok rep }

/-- The environment `sampleEnv` with another decoded VulnerabilityReport. -/
def vulnerabilityEnv (rep : VulnerabilityReport) : Env :=
  { sampleEnv (str "VulnerabilityReport") with unmarshalVulnerabilityReport := fun _ => .ok rep }

/-- All four flags on. -/
def allEnabled : Config :=
  { InfraAssessmentEnable := true, ConfigAuditEnable := true, ClusterComplianceEnable := true,
    VulnerabilityEnable := true }

/-- The flag of ConfigAuditReport off, the other three on. -/
def configAuditDisabled : Config :=
  { InfraAssessmentEnable := true, ConfigAuditEnable := false, ClusterComplianceEnable := true,
    VulnerabilityEnable := true }

/-- All four flags off. -/
def allDisabled : Config :=
  { InfraAssessmentEnable := false, ConfigAuditEnable := false,
    ClusterComplianceEnable := false, VulnerabilityEnable := false }

/-- An environment in which `config.LoadDefaultConfig` fails; the envelope of the body
carries the given kind. -/
def noSdkConfigEnv (kind : GoString) : Env :=
  { sampleEnv kind with
    loadDefaultConfig := fun _ => .error "failed to load shared config file" }

/-- An environment in which the body has the kind ConfigAuditReport and does not decode
as a ConfigAuditReport. -/
def undecodableEnv : Env :=
  { sampleEnv (str "ConfigAuditReport") with
    unmarshalConfigAuditReport := fun _ =>
      .error "json: cannot unmarshal string into Go struct field" }

/-- An environment in which the body is not valid JSON. -/
def invalidJsonEnv : Env :=
  { sampleEnv [] with
    unmarshalWebhook := fun _ => .error "invalid character x looking for beginning of value" }

/-- An environment in which `sts.GetCallerIdentity` fails; the envelope of the body
carries the given kind. -/
def noIdentityEnv (kind : GoString) : Env :=
  { sampleEnv kind with
    getCallerIdentity := fun _ _ => .error "operation error STS: GetCallerIdentity" }

/-- A vulnerability whose description is a single space. -/
def spaceVulnerability : Vulnerability :=
  { VulnerabilityID := str "CVE-2024-0003"
    Resource := str "busybox"
    InstalledVersion := str "1.36.0"
    FixedVersion := str "1.36.1"
    Severity := str "LOW"
    Title := str "busybox: use after free"
    Description := [32]
    PrimaryLink := str "https://avd.aquasec.com/nvd/cve-2024-0003"
    Score := none }

/-- The vulnerability `titleOnlyVulnerability` found in another package. -/
def samePackageElsewhere : Vulnerability :=
  { titleOnlyVulnerability with Resource := str "libssl3", InstalledVersion := str "3.0.0" }

/-- A VulnerabilityReport of the image `index.docker.io/library/nginx` with the given
digest, tag and vulnerabilities. -/
def imageReport (digest tag : GoString) (vulnerabilities : List Vulnerability) :
    VulnerabilityReport :=
  { Name := str "replicaset-web-nginx"
    Labels := [(str "trivy-operator.container.name", str "nginx")]
    Report :=
      { Registry := { Server := str "index.docker.io" }
        Artifact := { Repository := str "library/nginx", Digest := digest, Tag := tag }
        Vulnerabilities := vulnerabilities } }

/-- The findings that `getVulnerabilityReportFindings` returns for the decoded report
`rep` in `vulnerabilityEnv rep`, and no findings when it returns none. -/
def findingsOfVulnerabilityReport (rep : VulnerabilityReport) : List AwsSecurityFinding :=
  match (getVulnerabilityReportFindings (vulnerabilityEnv rep) sampleBody sampleWorld).1 with
  | .ok fs => fs
  | _ => []

/-- The findings that `getConfigAuditReportFindings` returns for the decoded report
`rep` in `configAuditEnv rep`, and no findings when it returns none. -/
def findingsOfConfigAuditReport (rep : ConfigAuditReport) : List AwsSecurityFinding :=
  match (getConfigAuditReportFindings (configAuditEnv rep) sampleBody sampleWorld).1 with
  | .ok fs => fs
  | _ => []

/-- A description of 1032 bytes, well-formed UTF-8, whose bytes 1020 and 1021 are the
two bytes C3 A9 of one character (e with an acute accent). -/
def accentedDescription : GoString :=
  List.replicate 1020 97 ++ [0xC3, 0xA9] ++ List.replicate 10 97

def accentedCheck : Check :=
  { highCheck with Description := accentedDescription }

def accentedVulnerability : Vulnerability :=
  { spaceVulnerability with Description := accentedDescription }

/-! ## What the mappers return -/

/-- Every finding the check loop appends is `configAuditFinding` of its check, with the
first message of that check. -/
theorem configAuditChecks_ok (env : Env) (a r p n : GoString) :
    ∀ (checks : List Check) (acc : List AwsSecurityFinding) (w w' : World)
      (fs : List AwsSecurityFinding),
      configAuditChecks env a r p n checks acc w = (.ok fs, w') →
      ∃ built, fs = acc ++ built ∧
        List.Forall₂
          (fun c f => ∃ t1 t2 m, c.Messages.head? = some m ∧
            f = configAuditFinding a r p n c t1 t2 m)
          checks built := by
  intro checks
  induction checks with
  | nil =>
    intro acc w w' fs h
    simp only [configAuditChecks, Prod.mk.injEq, GoResult.ok.injEq] at h
    exact ⟨[], by simp [h.1], List.Forall₂.nil⟩
  | cons c rest ih =>
    intro acc w w' fs h
    rw [configAuditChecks] at h
    cases hm : c.Messages with
    | nil => simp [hm] at h
    | cons m ms =>
      simp only [hm] at h
      obtain ⟨built, hfs, hall⟩ := ih _ _ _ _ h
      exact ⟨configAuditFinding a r p n c (env.timeNow w) (env.timeNow w.tick) m :: built,
        by simp [hfs], List.Forall₂.cons ⟨_, _, m, by simp [hm], rfl⟩ hall⟩

/-- When every check has a message, the check loop returns its findings. -/
theorem configAuditChecks_total (env : Env) (a r p n : GoString) :
    ∀ (checks : List Check) (acc : List AwsSecurityFinding) (w : World),
      (∀ c ∈ checks, c.Messages ≠ []) →
      ∃ fs w', configAuditChecks env a r p n checks acc w = (.ok fs, w') ∧
        w'.trace = w.trace := by
  intro checks
  induction checks with
  | nil => intro acc w _; exact ⟨acc, w, rfl, rfl⟩
  | cons c rest ih =>
    intro acc w h
    rw [configAuditChecks]
    cases hm : c.Messages with
    | nil => exact absurd hm (h c (List.mem_cons_self _ _))
    | cons m ms =>
      simp only
      obtain ⟨fs, w', h1, h2⟩ := ih (acc ++ [configAuditFinding a r p n c (env.timeNow w)
        (env.timeNow w.tick) m]) w.tick.tick (fun c hc => h c (List.mem_cons_of_mem _ hc))
      exact ⟨fs, w', h1, by simpa [World.tick] using h2⟩

/-- A check without a message makes the check loop panic. -/
theorem configAuditChecks_panic (env : Env) (a r p n : GoString) :
    ∀ (checks : List Check) (acc : List AwsSecurityFinding) (w : World),
      (∃ c ∈ checks, c.Messages = []) →
      ∃ w', configAuditChecks env a r p n checks acc w = (.panic indexPanic, w') ∧
        w'.trace = w.trace := by
  intro checks
  induction checks with
  | nil => intro acc w h; simp at h
  | cons c rest ih =>
    intro acc w h
    rw [configAuditChecks]
    cases hm : c.Messages with
    | nil => exact ⟨_, rfl, rfl⟩
    | cons m ms =>
      simp only
      obtain ⟨c', hc', hnil⟩ := h
      rcases List.mem_cons.mp hc' with rfl | hc'
      · simp [hm] at hnil
      · obtain ⟨w', h1, h2⟩ := ih (acc ++ [configAuditFinding a r p n c (env.timeNow w)
          (env.timeNow w.tick) m]) w.tick.tick ⟨c', hc', hnil⟩
        exact ⟨w', h1, by simpa [World.tick] using h2⟩

/-- The shape of a successful run of `getConfigAuditReportFindings`. -/
theorem getConfigAuditReportFindings_ok (env : Env) (body : GoString) (w w' : World)
    (fs : List AwsSecurityFinding)
    (h : getConfigAuditReportFindings env body w = (.ok fs, w')) :
    ∃ (rep : ConfigAuditReport) (cfg : AwsConfig) (ident : CallerIdentity)
      (owner : OwnerReference) (owners : List OwnerReference),
      env.unmarshalConfigAuditReport body = .ok rep ∧
      rep.OwnerReferences = owner :: owners ∧
      List.Forall₂
        (fun c f => ∃ t1 t2 m, c.Messages.head? = some m ∧
          f = configAuditFinding (awsToString ident.Account) cfg.Region
            (str "arn:aws:securityhub:" ++ cfg.Region
              ++ str "::product/aquasecurity/aquasecurity")
            (owner.Kind ++ str "/" ++ owner.Name) c t1 t2 m)
        rep.Report.Checks fs := by
  unfold getConfigAuditReportFindings at h
  cases hd : env.unmarshalConfigAuditReport body with
  | error e => simp [hd] at h
  | ok rep =>
    simp only [hd] at h
    cases hc : env.loadDefaultConfig (w.record (.unmarshal .configAuditReport)) with
    | error e => simp [hc] at h
    | ok cfg =>
      simp only [hc] at h
      cases hi : env.getCallerIdentity
          ((w.record (.unmarshal .configAuditReport)).record .loadDefaultConfig) cfg with
      | error e => simp [hi] at h
      | ok ident =>
        simp only [hi] at h
        cases ho : rep.OwnerReferences with
        | nil => simp [ho] at h
        | cons owner owners =>
          simp only [ho] at h
          obtain ⟨built, hfs, hall⟩ := configAuditChecks_ok env _ _ _ _ _ _ _ _ _ h
          simp only [List.nil_append] at hfs
          subst hfs
          exact ⟨rep, cfg, ident, owner, owners, rfl, ho, hall⟩

/-- The vulnerability loop appends one `vulnerabilityFinding` per entry, in order. -/
theorem vulnerabilityEntries_ok (env : Env) (a r p c t f i : GoString) :
    ∀ (vs : List Vulnerability) (acc : List AwsSecurityFinding) (w : World),
      ∃ built,
        (vulnerabilityEntries env a r p c t f i vs acc w).1 = acc ++ built ∧
        (vulnerabilityEntries env a r p c t f i vs acc w).2.trace = w.trace ∧
        List.Forall₂
          (fun v fd => ∃ t1 t2, fd = vulnerabilityFinding env a r p c t f i v t1 t2)
          vs built := by
  intro vs
  induction vs with
  | nil => intro acc w; exact ⟨[], by simp [vulnerabilityEntries], rfl, List.Forall₂.nil⟩
  | cons v rest ih =>
    intro acc w
    rw [vulnerabilityEntries]
    obtain ⟨built, h1, h2, hall⟩ :=
      ih (acc ++ [vulnerabilityFinding env a r p c t f i v (env.timeNow w) (env.timeNow w.tick)])
        w.tick.tick
    exact ⟨vulnerabilityFinding env a r p c t f i v (env.timeNow w) (env.timeNow w.tick) :: built,
      by simp [h1], by simpa [World.tick] using h2, List.Forall₂.cons ⟨_, _, rfl⟩ hall⟩

/-- The shape of a successful run of `getVulnerabilityReportFindings`. -/
theorem getVulnerabilityReportFindings_ok (env : Env) (body : GoString) (w w' : World)
    (fs : List AwsSecurityFinding)
    (h : getVulnerabilityReportFindings env body w = (.ok fs, w')) :
    ∃ (rep : VulnerabilityReport) (cfg : AwsConfig) (ident : CallerIdentity),
      env.unmarshalVulnerabilityReport body = .ok rep ∧
      List.Forall₂
        (fun v fd => ∃ t1 t2,
          fd = vulnerabilityFinding env (awsToString ident.Account) cfg.Region
            (str "arn:aws:securityhub:" ++ cfg.Region
              ++ str "::product/aquasecurity/aquasecurity")
            (mapIndex rep.Labels (str "trivy-operator.container.name"))
            rep.Report.Artifact.Tag
            (fullImageName rep.Report.Registry.Server rep.Report.Artifact.Repository
              rep.Report.Artifact.Digest rep.Report.Artifact.Tag)
            (rep.Report.Registry.Server ++ str "/" ++ rep.Report.Artifact.Repository)
            v t1 t2)
        rep.Report.Vulnerabilities fs := by
  unfold getVulnerabilityReportFindings at h
  cases hd : env.unmarshalVulnerabilityReport body with
  | error e => simp [hd] at h
  | ok rep =>
    simp only [hd] at h
    cases hc : env.loadDefaultConfig (w.record (.unmarshal .vulnerabilityReport)) with
    | error e => simp [hc] at h
    | ok cfg =>
      simp only [hc] at h
      cases hi : env.getCallerIdentity
          ((w.record (.unmarshal .vulnerabilityReport)).record .loadDefaultConfig) cfg with
      | error e => simp [hi] at h
      | ok ident =>
        simp only [hi, Prod.mk.injEq, GoResult.ok.injEq] at h
        obtain ⟨built, h1, -, hall⟩ := vulnerabilityEntries_ok env
          (awsToString ident.Account) cfg.Region
          (str "arn:aws:securityhub:" ++ cfg.Region ++ str "::product/aquasecurity/aquasecurity")
          (mapIndex rep.Labels (str "trivy-operator.container.name"))
          rep.Report.Artifact.Tag
          (fullImageName rep.Report.Registry.Server rep.Report.Artifact.Repository
            rep.Report.Artifact.Digest rep.Report.Artifact.Tag)
          (rep.Report.Registry.Server ++ str "/" ++ rep.Report.Artifact.Repository)
          rep.Report.Vulnerabilities []
          (((w.record (.unmarshal .vulnerabilityReport)).record .loadDefaultConfig).record
            .getCallerIdentity)
        rw [h.1] at h1
        simp only [List.nil_append] at h1
        subst h1
        exact ⟨rep, cfg, ident, rfl, hall⟩

/-- The three cases of the truncation statement. -/
theorem truncateDescription_spec (D : GoString) :
    (truncateDescription D).length ≤ 1024 ∧
    (D.length > 1024 →
      truncateDescription D = D.take 1021 ++ str "..." ∧
        (truncateDescription D).length = 1024) ∧
    (D.length ≤ 1024 → truncateDescription D = D) := by
  have h3 : (str "...").length = 3 := by decide
  by_cases h : D.length > 1024
  · have e : truncateDescription D = D.take 1021 ++ str "..." := by
      simp [truncateDescription, h]
    have l : (D.take 1021 ++ str "...").length = 1024 := by
      rw [List.length_append, List.length_take, h3]
      omega
    rw [e]
    exact ⟨by omega, fun _ => ⟨rfl, l⟩, fun h' => absurd h (by omega)⟩
  · have e : truncateDescription D = D := by
      simp [truncateDescription, h]
    rw [e]
    exact ⟨by omega, fun h' => absurd h' h, fun _ => rfl⟩

/-! ## The claims -/

/-- C1: in the findings returned by either mapper, the Description of the finding of an
entry has at most 1024 bytes; when the description `D` handed to the truncation step
(the check description, or the vulnerability description replaced by the title when
empty) is longer than 1024 bytes it is `D[:1021]` followed by three dots, 1024 bytes in
all, and otherwise it is `D` itself. -/
theorem C1_description_truncated (env : Env) (body : GoString) (w : World)
    (fs : List AwsSecurityFinding) :
    (∀ rep, env.unmarshalConfigAuditReport body = .ok rep →
      (getConfigAuditReportFindings env body w).1 = .ok fs →
      List.Forall₂
        (fun (c : Check) (f : AwsSecurityFinding) =>
          f.Description.length ≤ 1024 ∧
          (c.Description.length > 1024 →
            f.Description = c.Description.take 1021 ++ str "..." ∧
              f.Description.length = 1024) ∧
          (c.Description.length ≤ 1024 → f.Description = c.Description))
        rep.Report.Checks fs) ∧
    (∀ rep, env.unmarshalVulnerabilityReport body = .ok rep →
      (getVulnerabilityReportFindings env body w).1 = .ok fs →
      List.Forall₂
        (fun (v : Vulnerability) (f : AwsSecurityFinding) =>
          f.Description.length ≤ 1024 ∧
          ((if v.Description = [] then v.Title else v.Description).length > 1024 →
            f.Description =
                (if v.Description = [] then v.Title else v.Description).take 1021 ++ str "..." ∧
              f.Description.length = 1024) ∧
          ((if v.Description = [] then v.Title else v.Description).length ≤ 1024 →
            f.Description = (if v.Description = [] then v.Title else v.Description)))
        rep.Report.Vulnerabilities fs) := by
  constructor
  · intro rep hrep h
    obtain ⟨rep', cfg, ident, owner, owners, hrep', -, hall⟩ :=
      getConfigAuditReportFindings_ok env body w _ fs (Prod.ext h rfl)
    rw [hrep] at hrep'
    cases hrep'
    refine hall.imp ?_
    rintro c f ⟨t1, t2, m, -, rfl⟩
    exact truncateDescription_spec c.Description
  · intro rep hrep h
    obtain ⟨rep', cfg, ident, hrep', hall⟩ :=
      getVulnerabilityReportFindings_ok env body w _ fs (Prod.ext h rfl)
    rw [hrep] at hrep'
    cases hrep'
    refine hall.imp ?_
    rintro v f ⟨t1, t2, rfl⟩
    exact truncateDescription_spec (if v.Description = [] then v.Title else v.Description)

set_option maxRecDepth 100000 in
/-- C1 on the sample reports: both mappers return their findings, the 1030-byte
descriptions come out as 1021 bytes and three dots, the short ones unchanged. -/
theorem C1_description_truncated_witness :
    ((getConfigAuditReportFindings (sampleEnv (str "ConfigAuditReport")) sampleBody
        sampleWorld).1 = .ok sampleConfigAuditFindings ∧
      List.Forall₂
        (fun (c : Check) (f : AwsSecurityFinding) =>
          f.Description.length ≤ 1024 ∧
          (c.Description.length > 1024 →
            f.Description = c.Description.take 1021 ++ str "..." ∧
              f.Description.length = 1024) ∧
          (c.Description.length ≤ 1024 → f.Description = c.Description))
        [longCheck, highCheck] sampleConfigAuditFindings) ∧
    ((getVulnerabilityReportFindings (sampleEnv (str "VulnerabilityReport")) sampleBody
        sampleWorld).1 = .ok sampleVulnerabilityFindings ∧
      List.Forall₂
        (fun (v : Vulnerability) (f : AwsSecurityFinding) =>
          f.Description.length ≤ 1024 ∧
          ((if v.Description = [] then v.Title else v.Description).length > 1024 →
            f.Description =
                (if v.Description = [] then v.Title else v.Description).take 1021 ++ str "..." ∧
              f.Description.length = 1024) ∧
          ((if v.Description = [] then v.Title else v.Description).length ≤ 1024 →
            f.Description = (if v.Description = [] then v.Title else v.Description)))
        [titleOnlyVulnerability, longVulnerability] sampleVulnerabilityFindings) ∧
    sampleConfigAuditFindings.map (fun f => f.Description.length) = [1024, 5] ∧
    sampleVulnerabilityFindings.map (fun f => f.Description.length) = [17, 1024] :=
  ⟨⟨by decide,
      (C1_description_truncated (sampleEnv (str "ConfigAuditReport")) sampleBody sampleWorld
        sampleConfigAuditFindings).1 sampleConfigAuditReport rfl (by decide)⟩,
    ⟨by decide,
      (C1_description_truncated (sampleEnv (str "VulnerabilityReport")) sampleBody sampleWorld
        sampleVulnerabilityFindings).2 sampleVulnerabilityReport rfl (by decide)⟩,
    by decide, by decide⟩

/-- C4: in the findings returned by either mapper, the severity label of the finding of
an entry with source severity `S` is INFORMATIONAL when `S` is UNKNOWN and is `S` itself
otherwise, whatever `S` is. -/
theorem C4_severity_label (env : Env) (body : GoString) (w : World)
    (fs : List AwsSecurityFinding) :
    (∀ rep, env.unmarshalConfigAuditReport body = .ok rep →
      (getConfigAuditReportFindings env body w).1 = .ok fs →
      List.Forall₂
        (fun (c : Check) (f : AwsSecurityFinding) =>
          (c.Severity = str "UNKNOWN" → f.Severity.Label = str "INFORMATIONAL") ∧
          (c.Severity ≠ str "UNKNOWN" → f.Severity.Label = c.Severity))
        rep.Report.Checks fs) ∧
    (∀ rep, env.unmarshalVulnerabilityReport body = .ok rep →
      (getVulnerabilityReportFindings env body w).1 = .ok fs →
      List.Forall₂
        (fun (v : Vulnerability) (f : AwsSecurityFinding) =>
          (v.Severity = str "UNKNOWN" → f.Severity.Label = str "INFORMATIONAL") ∧
          (v.Severity ≠ str "UNKNOWN" → f.Severity.Label = v.Severity))
        rep.Report.Vulnerabilities fs) := by
  have key : ∀ S : GoString,
      (S = str "UNKNOWN" → severityLabel S = str "INFORMATIONAL") ∧
      (S ≠ str "UNKNOWN" → severityLabel S = S) := by
    intro S
    unfold severityLabel
    exact ⟨fun h => by rw [if_pos h], fun h => by rw [if_neg h]⟩
  constructor
  · intro rep hrep h
    obtain ⟨rep', cfg, ident, owner, owners, hrep', -, hall⟩ :=
      getConfigAuditReportFindings_ok env body w _ fs (Prod.ext h rfl)
    rw [hrep] at hrep'
    cases hrep'
    refine hall.imp ?_
    rintro c f ⟨t1, t2, m, -, rfl⟩
    exact key c.Severity
  · intro rep hrep h
    obtain ⟨rep', cfg, ident, hrep', hall⟩ :=
      getVulnerabilityReportFindings_ok env body w _ fs (Prod.ext h rfl)
    rw [hrep] at hrep'
    cases hrep'
    refine hall.imp ?_
    rintro v f ⟨t1, t2, rfl⟩
    exact key v.Severity

set_option maxRecDepth 100000 in
/-- C4 on the sample reports: UNKNOWN becomes INFORMATIONAL, HIGH and CRITICAL pass. -/
theorem C4_severity_label_witness :
    List.Forall₂
      (fun (c : Check) (f : AwsSecurityFinding) =>
        (c.Severity = str "UNKNOWN" → f.Severity.Label = str "INFORMATIONAL") ∧
        (c.Severity ≠ str "UNKNOWN" → f.Severity.Label = c.Severity))
      [longCheck, highCheck] sampleConfigAuditFindings ∧
    List.Forall₂
      (fun (v : Vulnerability) (f : AwsSecurityFinding) =>
        (v.Severity = str "UNKNOWN" → f.Severity.Label = str "INFORMATIONAL") ∧
        (v.Severity ≠ str "UNKNOWN" → f.Severity.Label = v.Severity))
      [titleOnlyVulnerability, longVulnerability] sampleVulnerabilityFindings ∧
    sampleConfigAuditFindings.map (fun f => f.Severity.Label)
      = [str "INFORMATIONAL", str "HIGH"] ∧
    sampleVulnerabilityFindings.map (fun f => f.Severity.Label)
      = [str "INFORMATIONAL", str "CRITICAL"] :=
  ⟨(C4_severity_label (sampleEnv (str "ConfigAuditReport")) sampleBody sampleWorld
      sampleConfigAuditFindings).1 sampleConfigAuditReport rfl (by decide),
    (C4_severity_label (sampleEnv (str "VulnerabilityReport")) sampleBody sampleWorld
      sampleVulnerabilityFindings).2 sampleVulnerabilityReport rfl (by decide),
    by decide, by decide⟩



/-! ## What the exporter submits -/

/-- The batch taken at index `i` is the next 100 findings, or what is left of them. -/
theorem batchAt_eq (findings : List AwsSecurityFinding) (i : Nat) :
    batchAt findings i = (findings.drop i).take 100 := by
  unfold batchAt
  simp only [List.drop_take]
  split
  · rw [List.take_of_length_le (by simp), List.take_of_length_le (by simp; omega)]
  · simp

/-- Recording the next batch moves the exporter one batch further. -/
theorem worldAfterBatches_succ (w : World) (findings : List AwsSecurityFinding) (j : Nat) :
    (worldAfterBatches w findings j).record (.batchImportFindings (batchAt findings (100 * j)))
      = worldAfterBatches w findings (j + 1) := by
  simp [worldAfterBatches, World.record, List.range_succ]

/-- The first `j` batches, one after the other, are the first `100 * j` findings. -/
theorem flatten_batches (findings : List AwsSecurityFinding) (j : Nat) :
    ((List.range j).map fun m => batchAt findings (100 * m)).flatten
      = findings.take (100 * j) := by
  induction j with
  | zero => simp
  | succ j ih =>
    rw [List.range_succ, List.map_append, List.flatten_append, ih]
    simp only [List.map_cons, List.map_nil, List.flatten_cons, List.flatten_nil,
      List.append_nil, batchAt_eq]
    rw [Nat.mul_succ, List.take_add]

/-- The batches in the trace of `worldAfterBatches`. -/
theorem submittedBatches_worldAfterBatches (w : World) (findings : List AwsSecurityFinding)
    (j : Nat) :
    submittedBatches (worldAfterBatches w findings j).trace
      = submittedBatches w.trace ++ (List.range j).map fun m => batchAt findings (100 * m) := by
  have key : ∀ l : List Nat,
      List.filterMap (fun x => some (batchAt findings (100 * x))) l
        = l.map fun m => batchAt findings (100 * m) := by
    intro l
    induction l with
    | nil => rfl
    | cons a l ih => simp [List.filterMap_cons, ih]
  simp [submittedBatches, worldAfterBatches, List.filterMap_append, List.filterMap_map,
    Function.comp_def, key]

/-- The loop, entered at batch `j0` with a sink that accepts every batch still to come,
submits all of them and returns no error. -/
theorem importBatches_accepted (env : Env) (findings : List AwsSecurityFinding) (w : World)
    (hacc : ∀ j, 100 * j < findings.length →
      env.batchImportFindings (worldAfterBatches w findings j) (batchAt findings (100 * j))
        = .ok ()) :
    ∀ (d j0 : Nat), j0 + d = (findings.length + 99) / 100 →
      importBatches env findings (100 * j0) (worldAfterBatches w findings j0)
        = (.ok (), worldAfterBatches w findings ((findings.length + 99) / 100)) := by
  intro d
  induction d with
  | zero =>
    intro j0 h
    rw [importBatches]
    simp only [Nat.add_zero] at h
    rw [if_neg (by omega), h]
  | succ d ih =>
    intro j0 h
    have hlt : 100 * j0 < findings.length := by omega
    rw [importBatches, if_pos hlt]
    simp only [hacc j0 hlt, worldAfterBatches_succ]
    have := ih (j0 + 1) (by omega)
    rw [Nat.mul_succ] at this
    exact this

/-- The loop, entered at batch `j0` with a sink that accepts the batches before batch
`k` and rejects batch `k`, stops right after submitting batch `k` and returns the error. -/
theorem importBatches_rejected (env : Env) (findings : List AwsSecurityFinding) (w : World)
    (k : Nat) (e : GoError) (hk : 100 * k < findings.length)
    (hacc : ∀ j, j < k →
      env.batchImportFindings (worldAfterBatches w findings j) (batchAt findings (100 * j))
        = .ok ())
    (hrej : env.batchImportFindings (worldAfterBatches w findings k)
      (batchAt findings (100 * k)) = .error e) :
    ∀ (d j0 : Nat), j0 + d = k →
      importBatches env findings (100 * j0) (worldAfterBatches w findings j0)
        = (.err ("error importing findings to Security Hub: " ++ e),
            worldAfterBatches w findings (k + 1)) := by
  intro d
  induction d with
  | zero =>
    intro j0 h
    simp only [Nat.add_zero] at h
    subst h
    rw [importBatches, if_pos hk]
    simp only [hrej, worldAfterBatches_succ]
  | succ d ih =>
    intro j0 h
    have hlt : 100 * j0 < findings.length := by omega
    rw [importBatches, if_pos hlt]
    simp only [hacc j0 (by omega), worldAfterBatches_succ]
    have := ih (j0 + 1) (by omega)
    rw [Nat.mul_succ] at this
    exact this

theorem worldAfterBatches_zero (w : World) (findings : List AwsSecurityFinding) :
    worldAfterBatches w findings 0 = w := by
  simp [worldAfterBatches]


/-- The events of the exporter before its loop are no batch submissions. -/
theorem submittedBatches_loopEntry (w : World) (findings : List AwsSecurityFinding) :
    submittedBatches
        ((w.record (.importFindings findings)).record .loadDefaultConfig).trace
      = submittedBatches w.trace := by
  simp [submittedBatches, World.record, List.filterMap_append]

/-- C2: with a sink that accepts every batch (its client is built, that is the SDK
configuration of the exporter loads, and every call of `BatchImportFindings` succeeds),
`importFindingsToSecurityHub` returns no error and submits `ceil(N/100)` batches, each
with at least one and at most 100 findings, whose concatenation in submission order is
the list of findings; for an empty list it submits none. -/
theorem C2_batches_partition (env : Env) (findings : List AwsSecurityFinding) (w : World)
    (cfg : AwsConfig)
    (hcfg : env.loadDefaultConfig (w.record (.importFindings findings)) = .ok cfg)
    (hsink : ∀ w' batch, env.batchImportFindings w' batch = .ok ()) :
    ∃ bs : List (List AwsSecurityFinding),
      (importFindingsToSecurityHub env findings w).1 = .ok () ∧
      submittedBatches (importFindingsToSecurityHub env findings w).2.trace
        = submittedBatches w.trace ++ bs ∧
      bs.length = (findings.length + 99) / 100 ∧
      (∀ b ∈ bs, 0 < b.length ∧ b.length ≤ 100) ∧
      bs.flatten = findings ∧
      (findings = [] → bs = []) := by
  have hrun := importBatches_accepted env findings
    ((w.record (.importFindings findings)).record .loadDefaultConfig)
    (fun j _ => hsink _ _) ((findings.length + 99) / 100) 0 (by omega)
  rw [Nat.mul_zero, worldAfterBatches_zero] at hrun
  have hres : importFindingsToSecurityHub env findings w
      = (.ok (), worldAfterBatches
          ((w.record (.importFindings findings)).record .loadDefaultConfig) findings
          ((findings.length + 99) / 100)) := by
    unfold importFindingsToSecurityHub
    simp only [hcfg]
    exact hrun
  refine ⟨(List.range ((findings.length + 99) / 100)).map
    fun m => batchAt findings (100 * m), ?_, ?_, ?_, ?_, ?_, ?_⟩
  · rw [hres]
  · rw [hres, submittedBatches_worldAfterBatches, submittedBatches_loopEntry]
  · simp
  · intro b hb
    obtain ⟨m, hm, rfl⟩ := List.mem_map.mp hb
    have hm' := List.mem_range.mp hm
    rw [batchAt_eq, List.length_take, List.length_drop]
    omega
  · rw [flatten_batches, List.take_of_length_le (by omega)]
  · intro h
    simp [h]

/-- C3: when the first failure of the sink occurs on batch `k` of the run (the client of
the sink is built, the first `k - 1` submissions are accepted, batch `k` exists, that is
`100 * (k - 1) < N`, and is rejected), `importFindingsToSecurityHub` returns an error
after submitting exactly `k` batches; the first `k - 1` of them are the first
`100 * (k - 1)` findings in order, they stay in the trace, and nothing is submitted
after the rejected batch. -/
theorem C3_first_failure_aborts (env : Env) (findings : List AwsSecurityFinding) (w : World)
    (cfg : AwsConfig) (k : Nat) (e : GoError)
    (hcfg : env.loadDefaultConfig (w.record (.importFindings findings)) = .ok cfg)
    (hk : 1 ≤ k) (hlen : 100 * (k - 1) < findings.length)
    (hacc : ∀ j, j + 1 < k →
      env.batchImportFindings
          (worldAfterBatches ((w.record (.importFindings findings)).record .loadDefaultConfig)
            findings j)
          (batchAt findings (100 * j))
        = .ok ())
    (hrej : env.batchImportFindings
        (worldAfterBatches ((w.record (.importFindings findings)).record .loadDefaultConfig)
          findings (k - 1))
        (batchAt findings (100 * (k - 1)))
      = .error e) :
    ∃ bs : List (List AwsSecurityFinding),
      (importFindingsToSecurityHub env findings w).1
        = .err ("error importing findings to Security Hub: " ++ e) ∧
      submittedBatches (importFindingsToSecurityHub env findings w).2.trace
        = submittedBatches w.trace ++ bs ∧
      bs.length = k ∧
      (bs.take (k - 1)).flatten = findings.take (100 * (k - 1)) ∧
      bs.drop (k - 1) = [(findings.drop (100 * (k - 1))).take 100] := by
  have hrun := importBatches_rejected env findings
    ((w.record (.importFindings findings)).record .loadDefaultConfig) (k - 1) e hlen
    (fun j hj => hacc j (by omega)) hrej (k - 1) 0 (by omega)
  rw [Nat.mul_zero, worldAfterBatches_zero] at hrun
  have hk1 : k - 1 + 1 = k := by omega
  rw [hk1] at hrun
  have hres : importFindingsToSecurityHub env findings w
      = (.err ("error importing findings to Security Hub: " ++ e), worldAfterBatches
          ((w.record (.importFindings findings)).record .loadDefaultConfig) findings k) := by
    unfold importFindingsToSecurityHub
    simp only [hcfg]
    exact hrun
  refine ⟨(List.range k).map fun m => batchAt findings (100 * m), ?_, ?_, ?_, ?_, ?_⟩
  · rw [hres]
  · rw [hres, submittedBatches_worldAfterBatches, submittedBatches_loopEntry]
  · simp
  · rw [← List.map_take, List.take_range, Nat.min_eq_left (by omega), flatten_batches]
  · rw [← List.map_drop]
    conv_lhs => rw [← hk1, List.range_succ, List.drop_append_of_le_length (by simp)]
    simp [batchAt_eq]


/-- C2 on 250 findings and a sink that accepts everything. -/
theorem C2_batches_partition_witness :
    ∃ bs : List (List AwsSecurityFinding),
      (importFindingsToSecurityHub (sampleEnv []) manyFindings sampleWorld).1 = .ok () ∧
      submittedBatches (importFindingsToSecurityHub (sampleEnv []) manyFindings sampleWorld).2.trace
        = submittedBatches sampleWorld.trace ++ bs ∧
      bs.length = (manyFindings.length + 99) / 100 ∧
      (∀ b ∈ bs, 0 < b.length ∧ b.length ≤ 100) ∧
      bs.flatten = manyFindings ∧
      (manyFindings = [] → bs = []) :=
  C2_batches_partition (sampleEnv []) manyFindings sampleWorld { Region := str "eu-west-1" } rfl
    (fun _ _ => rfl)

set_option maxRecDepth 100000 in
/-- C3 on 250 findings and a sink that rejects the third batch, the one of 50. -/
theorem C3_first_failure_aborts_witness :
    ∃ bs : List (List AwsSecurityFinding),
      (importFindingsToSecurityHub fullBatchesOnlyEnv manyFindings sampleWorld).1
        = .err ("error importing findings to Security Hub: " ++ "rejected") ∧
      submittedBatches
          (importFindingsToSecurityHub fullBatchesOnlyEnv manyFindings sampleWorld).2.trace
        = submittedBatches sampleWorld.trace ++ bs ∧
      bs.length = 3 ∧
      (bs.take (3 - 1)).flatten = manyFindings.take (100 * (3 - 1)) ∧
      bs.drop (3 - 1) = [(manyFindings.drop (100 * (3 - 1))).take 100] :=
  C3_first_failure_aborts fullBatchesOnlyEnv manyFindings sampleWorld
    { Region := str "eu-west-1" } 3 "rejected" rfl (by decide) (by decide)
    (fun j hj => by
      have hj' : j = 0 ∨ j = 1 := by omega
      have h0 : (batchAt manyFindings (100 * 0)).length = 100 := by decide
      have h1 : (batchAt manyFindings (100 * 1)).length = 100 := by decide
      rcases hj' with rfl | rfl
      · show (if (batchAt manyFindings (100 * 0)).length = 100 then Except.ok ()
          else Except.error "rejected") = Except.ok ()
        rw [if_pos h0]
      · show (if (batchAt manyFindings (100 * 1)).length = 100 then Except.ok ()
          else Except.error "rejected") = Except.ok ()
        rw [if_pos h1])
    (by
      have h2 : ¬ (batchAt manyFindings (100 * (3 - 1))).length = 100 := by decide
      show (if (batchAt manyFindings (100 * (3 - 1))).length = 100 then Except.ok ()
        else Except.error "rejected") = Except.error "rejected"
      rw [if_neg h2])


/-- C5: a ConfigAuditReport that decodes, with identity resolution succeeding, and that
has no owner reference makes `getConfigAuditReportFindings` panic at
`OwnerReferences[0]` instead of returning an error; the enabled handler is left by that
panic and writes no response. -/
theorem C5_missing_owner_reference_panics (env : Env) (cfg : Config) (r : Request) (w : World)
    (body : GoString) (report : webhook) (rep : ConfigAuditReport) (awsCfg : AwsConfig)
    (ident : CallerIdentity)
    (hread : r.readAll = .ok body) (hbody : body.length ≠ 0)
    (hweb : env.unmarshalWebhook body = .ok report)
    (hkind : report.Kind = str "ConfigAuditReport") (hflag : cfg.ConfigAuditEnable = true)
    (hrep : env.unmarshalConfigAuditReport body = .ok rep)
    (hown : rep.OwnerReferences = [])
    (hcfg : env.loadDefaultConfig
      ((w.record (.unmarshal .webhook)).record (.unmarshal .configAuditReport)) = .ok awsCfg)
    (hid : env.getCallerIdentity
      (((w.record (.unmarshal .webhook)).record (.unmarshal .configAuditReport)).record
        .loadDefaultConfig) awsCfg = .ok ident) :
    (getConfigAuditReportFindings env body (w.record (.unmarshal .webhook))).1
      = .panic indexPanic ∧
    (ProcessTrivyWebhook env cfg r w).1 = .panic indexPanic ∧
    (∀ fs, Event.importFindings fs ∉ (ProcessTrivyWebhook env cfg r w).2.trace.drop w.trace.length) := by
  have hmap : getConfigAuditReportFindings env body (w.record (.unmarshal .webhook))
      = (.panic indexPanic,
          (((w.record (.unmarshal .webhook)).record (.unmarshal .configAuditReport)).record
            .loadDefaultConfig).record .getCallerIdentity) := by
    unfold getConfigAuditReportFindings
    simp only [hrep, hcfg, hid, hown]
  have hrun : ProcessTrivyWebhook env cfg r w
      = (.panic indexPanic,
          (((w.record (.unmarshal .webhook)).record (.unmarshal .configAuditReport)).record
            .loadDefaultConfig).record .getCallerIdentity) := by
    unfold ProcessTrivyWebhook
    simp only [hread, hbody, hweb, hkind, hflag, if_true, if_false, hmap, processReport]
  refine ⟨by rw [hmap], by rw [hrun], ?_⟩
  intro fs
  rw [hrun]
  simp [World.record]


/-- C5 at a request whose ConfigAuditReport has one check and no owner reference. -/
theorem C5_missing_owner_reference_panics_witness :
    (getConfigAuditReportFindings (configAuditEnv unownedConfigAuditReport) sampleBody
        (sampleWorld.record (.unmarshal .webhook))).1 = .panic indexPanic ∧
    (ProcessTrivyWebhook (configAuditEnv unownedConfigAuditReport) allEnabled
        (requestWith sampleBody) sampleWorld).1 = .panic indexPanic ∧
    (∀ fs, Event.importFindings fs ∉
      (ProcessTrivyWebhook (configAuditEnv unownedConfigAuditReport) allEnabled
        (requestWith sampleBody) sampleWorld).2.trace.drop sampleWorld.trace.length) :=
  C5_missing_owner_reference_panics (configAuditEnv unownedConfigAuditReport) allEnabled
    (requestWith sampleBody) sampleWorld sampleBody
    { Kind := str "ConfigAuditReport", APIVersion := str "aquasecurity.github.io/v1alpha1" }
    unownedConfigAuditReport { Region := str "eu-west-1" }
    { Account := some (str "123456789012") }
    rfl (by decide) rfl rfl rfl rfl rfl rfl rfl

/-- C6: a ConfigAuditReport that decodes, with identity resolution succeeding, and that
contains a check without messages makes `getConfigAuditReportFindings` panic (at
`check.Messages[0]`, or before that at `OwnerReferences[0]`) instead of returning a
mapping error; the enabled handler is left by that panic and writes no response. -/
theorem C6_empty_messages_panics (env : Env) (cfg : Config) (r : Request) (w : World)
    (body : GoString) (report : webhook) (rep : ConfigAuditReport) (awsCfg : AwsConfig)
    (ident : CallerIdentity)
    (hread : r.readAll = .ok body) (hbody : body.length ≠ 0)
    (hweb : env.unmarshalWebhook body = .ok report)
    (hkind : report.Kind = str "ConfigAuditReport") (hflag : cfg.ConfigAuditEnable = true)
    (hrep : env.unmarshalConfigAuditReport body = .ok rep)
    (hsilent : ∃ c ∈ rep.Report.Checks, c.Messages = [])
    (hcfg : env.loadDefaultConfig
      ((w.record (.unmarshal .webhook)).record (.unmarshal .configAuditReport)) = .ok awsCfg)
    (hid : env.getCallerIdentity
      (((w.record (.unmarshal .webhook)).record (.unmarshal .configAuditReport)).record
        .loadDefaultConfig) awsCfg = .ok ident) :
    (getConfigAuditReportFindings env body (w.record (.unmarshal .webhook))).1
      = .panic indexPanic ∧
    (ProcessTrivyWebhook env cfg r w).1 = .panic indexPanic := by
  have hmap : ∃ w', getConfigAuditReportFindings env body (w.record (.unmarshal .webhook))
      = (.panic indexPanic, w') := by
    unfold getConfigAuditReportFindings
    simp only [hrep, hcfg, hid]
    cases ho : rep.OwnerReferences with
    | nil => exact ⟨_, rfl⟩
    | cons owner owners =>
      obtain ⟨w', h, -⟩ := configAuditChecks_panic env (awsToString ident.Account)
        awsCfg.Region
        (str "arn:aws:securityhub:" ++ awsCfg.Region
          ++ str "::product/aquasecurity/aquasecurity")
        (owner.Kind ++ str "/" ++ owner.Name) rep.Report.Checks []
        ((((w.record (.unmarshal .webhook)).record (.unmarshal .configAuditReport)).record
          .loadDefaultConfig).record .getCallerIdentity) hsilent
      exact ⟨w', h⟩
  obtain ⟨w', hmap⟩ := hmap
  refine ⟨by rw [hmap], ?_⟩
  unfold ProcessTrivyWebhook
  simp only [hread, hbody, hweb, hkind, hflag, if_true, if_false, hmap, processReport]

/-- C6 at a request whose ConfigAuditReport has an owner reference and a second check
without messages. -/
theorem C6_empty_messages_panics_witness :
    (getConfigAuditReportFindings (configAuditEnv silentConfigAuditReport) sampleBody
        (sampleWorld.record (.unmarshal .webhook))).1 = .panic indexPanic ∧
    (ProcessTrivyWebhook (configAuditEnv silentConfigAuditReport) allEnabled
        (requestWith sampleBody) sampleWorld).1 = .panic indexPanic :=
  C6_empty_messages_panics (configAuditEnv silentConfigAuditReport) allEnabled
    (requestWith sampleBody) sampleWorld sampleBody
    { Kind := str "ConfigAuditReport", APIVersion := str "aquasecurity.github.io/v1alpha1" }
    silentConfigAuditReport { Region := str "eu-west-1" }
    { Account := some (str "123456789012") }
    rfl (by decide) rfl rfl rfl rfl ⟨silentCheck, by decide, rfl⟩ rfl rfl

/-- C7, the claim as stated fails: a ConfigAuditReport that decodes with zero checks
and no owner reference, identity resolution succeeding, does not yield an empty list
of findings; the mapper panics. -/
theorem C7_empty_report_counterexample :
    (configAuditEnv emptyUnownedConfigAuditReport).unmarshalConfigAuditReport sampleBody
        = .ok emptyUnownedConfigAuditReport ∧
    emptyUnownedConfigAuditReport.Report.Checks = [] ∧
    (getConfigAuditReportFindings (configAuditEnv emptyUnownedConfigAuditReport) sampleBody
        sampleWorld).1 = .panic indexPanic ∧
    (getConfigAuditReportFindings (configAuditEnv emptyUnownedConfigAuditReport) sampleBody
        sampleWorld).1 ≠ .ok [] :=
  ⟨rfl, rfl, by decide, by decide⟩

/-- C7, amended: a ConfigAuditReport that decodes with zero checks and at least one
owner reference, and a VulnerabilityReport that decodes with zero vulnerabilities,
identity resolution succeeding, make their mapper return success with an empty list of
findings. -/
theorem C7_empty_report_no_findings (env : Env) (body : GoString) (w : World)
    (awsCfg : AwsConfig) (ident : CallerIdentity) :
    (∀ (rep : ConfigAuditReport) (owner : OwnerReference) (owners : List OwnerReference),
      env.unmarshalConfigAuditReport body = .ok rep →
      rep.Report.Checks = [] →
      rep.OwnerReferences = owner :: owners →
      env.loadDefaultConfig (w.record (.unmarshal .configAuditReport)) = .ok awsCfg →
      env.getCallerIdentity
        ((w.record (.unmarshal .configAuditReport)).record .loadDefaultConfig) awsCfg
          = .ok ident →
      (getConfigAuditReportFindings env body w).1 = .ok []) ∧
    (∀ (rep : VulnerabilityReport),
      env.unmarshalVulnerabilityReport body = .ok rep →
      rep.Report.Vulnerabilities = [] →
      env.loadDefaultConfig (w.record (.unmarshal .vulnerabilityReport)) = .ok awsCfg →
      env.getCallerIdentity
        ((w.record (.unmarshal .vulnerabilityReport)).record .loadDefaultConfig) awsCfg
          = .ok ident →
      (getVulnerabilityReportFindings env body w).1 = .ok []) := by
  constructor
  · intro rep owner owners hrep hchecks hown hcfg hid
    unfold getConfigAuditReportFindings
    simp only [hrep, hcfg, hid, hown, hchecks, configAuditChecks]
  · intro rep hrep hvulns hcfg hid
    unfold getVulnerabilityReportFindings
    simp only [hrep, hcfg, hid, hvulns, vulnerabilityEntries]

/-- C7, amended, at the two empty sample reports. -/
theorem C7_empty_report_no_findings_witness :
    (getConfigAuditReportFindings (configAuditEnv emptyConfigAuditReport) sampleBody
        sampleWorld).1 = .ok [] ∧
    (getVulnerabilityReportFindings (vulnerabilityEnv emptyVulnerabilityReport) sampleBody
        sampleWorld).1 = .ok [] :=
  ⟨(C7_empty_report_no_findings (configAuditEnv emptyConfigAuditReport) sampleBody sampleWorld
      { Region := str "eu-west-1" } { Account := some (str "123456789012") }).1
      emptyConfigAuditReport { Kind := str "ReplicaSet", Name := str "web" } [] rfl rfl rfl
      rfl rfl,
    (C7_empty_report_no_findings (vulnerabilityEnv emptyVulnerabilityReport) sampleBody
      sampleWorld { Region := str "eu-west-1" } { Account := some (str "123456789012") }).2
      emptyVulnerabilityReport rfl rfl rfl rfl⟩


/-! ## The handler -/

/-- With no findings the loop of the exporter does nothing. -/
theorem importBatches_nil (env : Env) (w : World) : importBatches env [] 0 w = (.ok (), w) := by
  rw [importBatches]
  simp

/-- What the end of the handler does with an empty list of findings. -/
theorem sendFindings_nil (env : Env) (w : World) :
    sendFindings env [] w =
      (match env.loadDefaultConfig (w.record (.importFindings [])) with
        | .error _ =>
          Outcome.response
            (httpError "Error importing findings to Security Hub" StatusInternalServerError)
        | .ok _ =>
          Outcome.response
            { status := StatusOK
              body := "Vulnerabilities processed and imported to Security Hub" },
        (w.record (.importFindings [])).record .loadDefaultConfig) := by
  unfold sendFindings importFindingsToSecurityHub
  cases h : env.loadDefaultConfig (w.record (.importFindings [])) with
  | error e => simp only [h]
  | ok c => simp only [h, importBatches_nil]

/-- A request whose kind is disabled goes straight to the end of the handler, with no
findings. -/
theorem ProcessTrivyWebhook_disabled (env : Env) (cfg : Config) (r : Request) (w : World)
    (body : GoString) (report : webhook)
    (hread : r.readAll = .ok body) (hbody : body.length ≠ 0)
    (hweb : env.unmarshalWebhook body = .ok report)
    (hoff : (report.Kind = str "ConfigAuditReport" ∧ cfg.ConfigAuditEnable = false) ∨
      (report.Kind = str "InfraAssessmentReport" ∧ cfg.InfraAssessmentEnable = false) ∨
      (report.Kind = str "ClusterComplianceReport" ∧ cfg.ClusterComplianceEnable = false) ∨
      (report.Kind = str "VulnerabilityReport" ∧ cfg.VulnerabilityEnable = false)) :
    ProcessTrivyWebhook env cfg r w = sendFindings env [] (w.record (.unmarshal .webhook)) := by
  have d1 : str "InfraAssessmentReport" ≠ str "ConfigAuditReport" := by decide
  have d2 : str "ClusterComplianceReport" ≠ str "ConfigAuditReport" := by decide
  have d3 : str "ClusterComplianceReport" ≠ str "InfraAssessmentReport" := by decide
  have d4 : str "VulnerabilityReport" ≠ str "ConfigAuditReport" := by decide
  have d5 : str "VulnerabilityReport" ≠ str "InfraAssessmentReport" := by decide
  have d6 : str "VulnerabilityReport" ≠ str "ClusterComplianceReport" := by decide
  unfold ProcessTrivyWebhook
  simp only [hread, hbody, hweb, if_false]
  rcases hoff with ⟨hk, hf⟩ | ⟨hk, hf⟩ | ⟨hk, hf⟩ | ⟨hk, hf⟩
  · simp [hk, hf]
  · simp [hk, hf, d1]
  · simp [hk, hf, d2, d3]
  · simp [hk, hf, d4, d5, d6]


/-- C8, the claim as stated fails: the body parses with kind ConfigAuditReport and the
flag of that kind is off, yet the answer is a 500, because the exporter is still called
and cannot load its SDK configuration. -/
theorem C8_disabled_kind_counterexample :
    (noSdkConfigEnv (str "ConfigAuditReport")).unmarshalWebhook sampleBody
      = .ok { Kind := str "ConfigAuditReport",
              APIVersion := str "aquasecurity.github.io/v1alpha1" } ∧
    configAuditDisabled.ConfigAuditEnable = false ∧
    (ProcessTrivyWebhook (noSdkConfigEnv (str "ConfigAuditReport")) configAuditDisabled
        (requestWith sampleBody) sampleWorld).1
      = .response { status := 500, body := "Error importing findings to Security Hub\n" } ∧
    (ProcessTrivyWebhook (noSdkConfigEnv (str "ConfigAuditReport")) configAuditDisabled
        (requestWith sampleBody) sampleWorld).1
      ≠ .response
          { status := 200, body := "Vulnerabilities processed and imported to Security Hub" } := by
  have h := ProcessTrivyWebhook_disabled (noSdkConfigEnv (str "ConfigAuditReport"))
    configAuditDisabled (requestWith sampleBody) sampleWorld sampleBody
    { Kind := str "ConfigAuditReport", APIVersion := str "aquasecurity.github.io/v1alpha1" }
    rfl (by decide) rfl (Or.inl ⟨rfl, rfl⟩)
  rw [h, sendFindings_nil]
  exact ⟨rfl, rfl, by decide, by decide⟩

/-- C8, amended: for each of the four kinds, when the body parses with that kind and
the flag of that kind is off, whatever the other flags, the handler enters the exporter
with an empty list of findings and no batch reaches the sink; it answers 200 when the
exporter loads its SDK configuration, and 500 when it does not. -/
theorem C8_disabled_kind_exports_nothing (env : Env) (cfg : Config) (r : Request) (w : World)
    (body : GoString) (report : webhook)
    (hread : r.readAll = .ok body) (hbody : body.length ≠ 0)
    (hweb : env.unmarshalWebhook body = .ok report)
    (hoff : (report.Kind = str "ConfigAuditReport" ∧ cfg.ConfigAuditEnable = false) ∨
      (report.Kind = str "InfraAssessmentReport" ∧ cfg.InfraAssessmentEnable = false) ∨
      (report.Kind = str "ClusterComplianceReport" ∧ cfg.ClusterComplianceEnable = false) ∨
      (report.Kind = str "VulnerabilityReport" ∧ cfg.VulnerabilityEnable = false)) :
    (ProcessTrivyWebhook env cfg r w).2.trace
      = w.trace ++ [.unmarshal .webhook, .importFindings [], .loadDefaultConfig] ∧
    submittedBatches (ProcessTrivyWebhook env cfg r w).2.trace = submittedBatches w.trace ∧
    (∀ c, env.loadDefaultConfig ((w.record (.unmarshal .webhook)).record (.importFindings []))
        = .ok c →
      (ProcessTrivyWebhook env cfg r w).1
        = .response
            { status := 200
              body := "Vulnerabilities processed and imported to Security Hub" }) ∧
    (∀ e, env.loadDefaultConfig ((w.record (.unmarshal .webhook)).record (.importFindings []))
        = .error e →
      (ProcessTrivyWebhook env cfg r w).1
        = .response
            { status := 500, body := "Error importing findings to Security Hub\n" }) := by
  rw [ProcessTrivyWebhook_disabled env cfg r w body report hread hbody hweb hoff,
    sendFindings_nil]
  refine ⟨by simp [World.record], by simp [World.record, submittedBatches, List.filterMap_append],
    ?_, ?_⟩
  · intro c hc
    simp only [hc]
    rfl
  · intro e he
    simp only [he]
    rfl

/-- C8, amended, at a ConfigAuditReport with only that flag off and at a
VulnerabilityReport with every flag off. -/
theorem C8_disabled_kind_exports_nothing_witness :
    ((ProcessTrivyWebhook (sampleEnv (str "ConfigAuditReport")) configAuditDisabled
        (requestWith sampleBody) sampleWorld).2.trace
      = sampleWorld.trace ++ [.unmarshal .webhook, .importFindings [], .loadDefaultConfig]) ∧
    ((ProcessTrivyWebhook (sampleEnv (str "VulnerabilityReport")) allDisabled
        (requestWith sampleBody) sampleWorld).1
      = .response
          { status := 200, body := "Vulnerabilities processed and imported to Security Hub" }) :=
  ⟨(C8_disabled_kind_exports_nothing (sampleEnv (str "ConfigAuditReport")) configAuditDisabled
      (requestWith sampleBody) sampleWorld sampleBody
      { Kind := str "ConfigAuditReport", APIVersion := str "aquasecurity.github.io/v1alpha1" }
      rfl (by decide) rfl (Or.inl ⟨rfl, rfl⟩)).1,
    (C8_disabled_kind_exports_nothing (sampleEnv (str "VulnerabilityReport")) allDisabled
      (requestWith sampleBody) sampleWorld sampleBody
      { Kind := str "VulnerabilityReport", APIVersion := str "aquasecurity.github.io/v1alpha1" }
      rfl (by decide) rfl (Or.inr (Or.inr (Or.inr ⟨rfl, rfl⟩)))).2.2.1
      { Region := str "eu-west-1" } rfl⟩

/-- C9, the claim as stated fails: the body has the kind ConfigAuditReport, does not
decode as one, and the flag is off; the handler never runs the decoder of that kind
and answers 200, not a server error. -/
theorem C9_disabled_kind_counterexample :
    undecodableEnv.unmarshalConfigAuditReport sampleBody
      = .error "json: cannot unmarshal string into Go struct field" ∧
    configAuditDisabled.ConfigAuditEnable = false ∧
    (ProcessTrivyWebhook undecodableEnv configAuditDisabled (requestWith sampleBody)
        sampleWorld).1
      = .response
          { status := 200, body := "Vulnerabilities processed and imported to Security Hub" } ∧
    Event.unmarshal .configAuditReport ∉
      (ProcessTrivyWebhook undecodableEnv configAuditDisabled (requestWith sampleBody)
        sampleWorld).2.trace := by
  have h := ProcessTrivyWebhook_disabled undecodableEnv configAuditDisabled
    (requestWith sampleBody) sampleWorld sampleBody
    { Kind := str "ConfigAuditReport", APIVersion := str "aquasecurity.github.io/v1alpha1" }
    rfl (by decide) rfl (Or.inl ⟨rfl, rfl⟩)
  rw [h, sendFindings_nil]
  exact ⟨rfl, rfl, by decide, by decide⟩

/-- C9, amended: when the flag of the matched kind is off, the handler runs neither the
decoder nor the mapper of that kind: after the envelope nothing is decoded or encoded,
the answer is never the 500 of a failed decode, and it is 200 whenever the exporter
loads its SDK configuration, whether or not the body would decode as that kind. -/
theorem C9_disabled_kind_skips_decoder (env : Env) (cfg : Config) (r : Request) (w : World)
    (body : GoString) (report : webhook)
    (hread : r.readAll = .ok body) (hbody : body.length ≠ 0)
    (hweb : env.unmarshalWebhook body = .ok report)
    (hoff : (report.Kind = str "ConfigAuditReport" ∧ cfg.ConfigAuditEnable = false) ∨
      (report.Kind = str "InfraAssessmentReport" ∧ cfg.InfraAssessmentEnable = false) ∨
      (report.Kind = str "ClusterComplianceReport" ∧ cfg.ClusterComplianceEnable = false) ∨
      (report.Kind = str "VulnerabilityReport" ∧ cfg.VulnerabilityEnable = false)) :
    ∃ events : List Event,
      (ProcessTrivyWebhook env cfg r w).2.trace = w.trace ++ events ∧
      (∀ t, Event.unmarshal t ∈ events → t = .webhook) ∧
      (∀ t, Event.marshalIndent t ∉ events) ∧
      Event.getCallerIdentity ∉ events ∧
      (ProcessTrivyWebhook env cfg r w).1
        ≠ .response { status := 500, body := "Error processing report\n" } ∧
      (∀ c, env.loadDefaultConfig
          ((w.record (.unmarshal .webhook)).record (.importFindings [])) = .ok c →
        (ProcessTrivyWebhook env cfg r w).1
          = .response
              { status := 200
                body := "Vulnerabilities processed and imported to Security Hub" }) := by
  rw [ProcessTrivyWebhook_disabled env cfg r w body report hread hbody hweb hoff,
    sendFindings_nil]
  refine ⟨[.unmarshal .webhook, .importFindings [], .loadDefaultConfig],
    by simp [World.record], by simp, by simp, by simp, ?_, ?_⟩
  · cases env.loadDefaultConfig ((w.record (.unmarshal .webhook)).record (.importFindings []))
      <;> simp only <;> decide
  · intro c hc
    simp only [hc]
    rfl

/-- C9, amended, at a disabled ConfigAuditReport that would not decode. -/
theorem C9_disabled_kind_skips_decoder_witness :
    ∃ events : List Event,
      (ProcessTrivyWebhook undecodableEnv configAuditDisabled (requestWith sampleBody)
        sampleWorld).2.trace = sampleWorld.trace ++ events ∧
      (∀ t, Event.unmarshal t ∈ events → t = .webhook) ∧
      (∀ t, Event.marshalIndent t ∉ events) ∧
      Event.getCallerIdentity ∉ events ∧
      (ProcessTrivyWebhook undecodableEnv configAuditDisabled (requestWith sampleBody)
        sampleWorld).1
        ≠ .response { status := 500, body := "Error processing report\n" } ∧
      (∀ c, undecodableEnv.loadDefaultConfig
          ((sampleWorld.record (.unmarshal .webhook)).record (.importFindings [])) = .ok c →
        (ProcessTrivyWebhook undecodableEnv configAuditDisabled (requestWith sampleBody)
          sampleWorld).1
          = .response
              { status := 200
                body := "Vulnerabilities processed and imported to Security Hub" }) :=
  C9_disabled_kind_skips_decoder undecodableEnv configAuditDisabled (requestWith sampleBody)
    sampleWorld sampleBody
    { Kind := str "ConfigAuditReport", APIVersion := str "aquasecurity.github.io/v1alpha1" }
    rfl (by decide) rfl (Or.inl ⟨rfl, rfl⟩)

/-- C10: when the body is read, is not empty and parses as an envelope whose kind is
none of ConfigAuditReport, InfraAssessmentReport, ClusterComplianceReport and
VulnerabilityReport, then for every flag configuration the handler answers 400 with
the message "unknown report type", and the only event of the request is the decoding of
the envelope: no decoder of a kind runs and the exporter is not entered. -/
theorem C10_unknown_kind_rejected (env : Env) (cfg : Config) (r : Request) (w : World)
    (body : GoString) (report : webhook)
    (hread : r.readAll = .ok body) (hbody : body.length ≠ 0)
    (hweb : env.unmarshalWebhook body = .ok report)
    (h1 : report.Kind ≠ str "ConfigAuditReport")
    (h2 : report.Kind ≠ str "InfraAssessmentReport")
    (h3 : report.Kind ≠ str "ClusterComplianceReport")
    (h4 : report.Kind ≠ str "VulnerabilityReport") :
    (ProcessTrivyWebhook env cfg r w).1
      = .response { status := 400, body := "unknown report type\n" } ∧
    (ProcessTrivyWebhook env cfg r w).2.trace = w.trace ++ [.unmarshal .webhook] := by
  unfold ProcessTrivyWebhook
  simp only [hread, hbody, hweb, h1, h2, h3, h4, if_false]
  exact ⟨rfl, rfl⟩

/-- C10 at the kind FooReport with every flag on, and at a missing kind with every flag
off. -/
theorem C10_unknown_kind_rejected_witness :
    ((ProcessTrivyWebhook (sampleEnv (str "FooReport")) allEnabled (requestWith sampleBody)
          sampleWorld).1
        = .response { status := 400, body := "unknown report type\n" } ∧
      (ProcessTrivyWebhook (sampleEnv (str "FooReport")) allEnabled (requestWith sampleBody)
          sampleWorld).2.trace = sampleWorld.trace ++ [.unmarshal .webhook]) ∧
    ((ProcessTrivyWebhook (sampleEnv []) allDisabled (requestWith sampleBody)
          sampleWorld).1
        = .response { status := 400, body := "unknown report type\n" } ∧
      (ProcessTrivyWebhook (sampleEnv []) allDisabled (requestWith sampleBody)
          sampleWorld).2.trace = sampleWorld.trace ++ [.unmarshal .webhook]) :=
  ⟨C10_unknown_kind_rejected (sampleEnv (str "FooReport")) allEnabled (requestWith sampleBody)
      sampleWorld sampleBody
      { Kind := str "FooReport", APIVersion := str "aquasecurity.github.io/v1alpha1" }
      rfl (by decide) rfl (by decide) (by decide) (by decide) (by decide),
    C10_unknown_kind_rejected (sampleEnv []) allDisabled (requestWith sampleBody)
      sampleWorld sampleBody
      { Kind := [], APIVersion := str "aquasecurity.github.io/v1alpha1" }
      rfl (by decide) rfl (by decide) (by decide) (by decide) (by decide)⟩


/-! ## The events of a mapper -/

/-- The check loop reads the clock and leaves the trace as it is. -/
theorem configAuditChecks_trace (env : Env) (a r p n : GoString) :
    ∀ (checks : List Check) (acc : List AwsSecurityFinding) (w : World),
      (configAuditChecks env a r p n checks acc w).2.trace = w.trace := by
  intro checks
  induction checks with
  | nil => intro acc w; rfl
  | cons c rest ih =>
    intro acc w
    rw [configAuditChecks]
    cases hm : c.Messages with
    | nil => rfl
    | cons m ms =>
      simp only
      rw [ih]
      rfl

/-- The events of `getConfigAuditReportFindings` are none of the exporter. -/
theorem getConfigAuditReportFindings_events (env : Env) (body : GoString) (w : World) :
    ∃ events : List Event,
      (getConfigAuditReportFindings env body w).2.trace = w.trace ++ events ∧
      (∀ fs, Event.importFindings fs ∉ events) ∧
      (∀ b, Event.batchImportFindings b ∉ events) := by
  unfold getConfigAuditReportFindings
  cases env.unmarshalConfigAuditReport body with
  | error e => exact ⟨[.unmarshal .configAuditReport], by simp [World.record], by simp, by simp⟩
  | ok rep =>
    simp only
    cases env.loadDefaultConfig (w.record (.unmarshal .configAuditReport)) with
    | error e =>
      exact ⟨[.unmarshal .configAuditReport, .loadDefaultConfig], by simp [World.record],
        by simp, by simp⟩
    | ok cfg =>
      simp only
      cases env.getCallerIdentity
          ((w.record (.unmarshal .configAuditReport)).record .loadDefaultConfig) cfg with
      | error e =>
        exact ⟨[.unmarshal .configAuditReport, .loadDefaultConfig, .getCallerIdentity],
          by simp [World.record], by simp, by simp⟩
      | ok ident =>
        simp only
        cases rep.OwnerReferences with
        | nil =>
          exact ⟨[.unmarshal .configAuditReport, .loadDefaultConfig, .getCallerIdentity],
            by simp [World.record], by simp, by simp⟩
        | cons owner owners =>
          simp only
          rw [configAuditChecks_trace]
          exact ⟨[.unmarshal .configAuditReport, .loadDefaultConfig, .getCallerIdentity],
            by simp [World.record], by simp, by simp⟩

/-- The events of `getVulnerabilityReportFindings` are none of the exporter. -/
theorem getVulnerabilityReportFindings_events (env : Env) (body : GoString) (w : World) :
    ∃ events : List Event,
      (getVulnerabilityReportFindings env body w).2.trace = w.trace ++ events ∧
      (∀ fs, Event.importFindings fs ∉ events) ∧
      (∀ b, Event.batchImportFindings b ∉ events) := by
  unfold getVulnerabilityReportFindings
  cases env.unmarshalVulnerabilityReport body with
  | error e => exact ⟨[.unmarshal .vulnerabilityReport], by simp [World.record], by simp, by simp⟩
  | ok rep =>
    simp only
    cases env.loadDefaultConfig (w.record (.unmarshal .vulnerabilityReport)) with
    | error e =>
      exact ⟨[.unmarshal .vulnerabilityReport, .loadDefaultConfig], by simp [World.record],
        by simp, by simp⟩
    | ok cfg =>
      simp only
      cases env.getCallerIdentity
          ((w.record (.unmarshal .vulnerabilityReport)).record .loadDefaultConfig) cfg with
      | error e =>
        exact ⟨[.unmarshal .vulnerabilityReport, .loadDefaultConfig, .getCallerIdentity],
          by simp [World.record], by simp, by simp⟩
      | ok ident =>
        simp only
        obtain ⟨built, -, h2, -⟩ := vulnerabilityEntries_ok env
          (awsToString ident.Account) cfg.Region
          (str "arn:aws:securityhub:" ++ cfg.Region ++ str "::product/aquasecurity/aquasecurity")
          (mapIndex rep.Labels (str "trivy-operator.container.name"))
          rep.Report.Artifact.Tag
          (fullImageName rep.Report.Registry.Server rep.Report.Artifact.Repository
            rep.Report.Artifact.Digest rep.Report.Artifact.Tag)
          (rep.Report.Registry.Server ++ str "/" ++ rep.Report.Artifact.Repository)
          rep.Report.Vulnerabilities []
          (((w.record (.unmarshal .vulnerabilityReport)).record .loadDefaultConfig).record
            .getCallerIdentity)
        rw [h2]
        exact ⟨[.unmarshal .vulnerabilityReport, .loadDefaultConfig, .getCallerIdentity],
          by simp [World.record], by simp, by simp⟩

/-- The events of `getInfraAssessmentReport` are none of the exporter. -/
theorem getInfraAssessmentReport_events (env : Env) (body : GoString) (w : World) :
    ∃ events : List Event,
      (getInfraAssessmentReport env body w).2.trace = w.trace ++ events ∧
      (∀ fs, Event.importFindings fs ∉ events) ∧
      (∀ b, Event.batchImportFindings b ∉ events) := by
  unfold getInfraAssessmentReport
  cases env.unmarshalInfraAssessmentReport body with
  | error e =>
    exact ⟨[.unmarshal .infraAssessmentReport], by simp [World.record], by simp, by simp⟩
  | ok rep =>
    simp only
    cases env.marshalIndentInfraAssessmentReport rep <;>
      exact ⟨[.unmarshal .infraAssessmentReport, .marshalIndent .infraAssessmentReport],
        by simp [World.record], by simp, by simp⟩

/-- The events of `getClusterComplianceReport` are none of the exporter. -/
theorem getClusterComplianceReport_events (env : Env) (body : GoString) (w : World) :
    ∃ events : List Event,
      (getClusterComplianceReport env body w).2.trace = w.trace ++ events ∧
      (∀ fs, Event.importFindings fs ∉ events) ∧
      (∀ b, Event.batchImportFindings b ∉ events) := by
  unfold getClusterComplianceReport
  cases env.unmarshalClusterComplianceReport body with
  | error e =>
    exact ⟨[.unmarshal .clusterComplianceReport], by simp [World.record], by simp, by simp⟩
  | ok rep =>
    simp only
    cases env.marshalIndentClusterComplianceReport rep <;>
      exact ⟨[.unmarshal .clusterComplianceReport, .marshalIndent .clusterComplianceReport],
        by simp [World.record], by simp, by simp⟩

/-- An enabled `case` whose mapper returns an error answers 500 and stops there. -/
theorem processReport_err (env : Env) (mapped : GoResult (List AwsSecurityFinding) × World)
    (e : GoError) (h : mapped.1 = .err e) :
    processReport env mapped
      = (.response { status := 500, body := "Error processing report\n" }, mapped.2) := by
  obtain ⟨res, w1⟩ := mapped
  simp only at h
  subst h
  rfl


/-- C11: whenever the function that the handler selects for the kind of the body (the
kind matches and its flag is on) returns an error, the handler answers 500 with the
message "Error processing report", and among the events of the request there is no
entry of the exporter and no batch submission. -/
theorem C11_mapper_error_is_server_error (env : Env) (cfg : Config) (r : Request) (w : World)
    (body : GoString) (report : webhook) (e : GoError)
    (hread : r.readAll = .ok body) (hbody : body.length ≠ 0)
    (hweb : env.unmarshalWebhook body = .ok report)
    (herr :
      (report.Kind = str "ConfigAuditReport" ∧ cfg.ConfigAuditEnable = true ∧
        (getConfigAuditReportFindings env body (w.record (.unmarshal .webhook))).1 = .err e) ∨
      (report.Kind = str "InfraAssessmentReport" ∧ cfg.InfraAssessmentEnable = true ∧
        (getInfraAssessmentReport env body (w.record (.unmarshal .webhook))).1 = .err e) ∨
      (report.Kind = str "ClusterComplianceReport" ∧ cfg.ClusterComplianceEnable = true ∧
        (getClusterComplianceReport env body (w.record (.unmarshal .webhook))).1 = .err e) ∨
      (report.Kind = str "VulnerabilityReport" ∧ cfg.VulnerabilityEnable = true ∧
        (getVulnerabilityReportFindings env body (w.record (.unmarshal .webhook))).1
          = .err e)) :
    (ProcessTrivyWebhook env cfg r w).1
      = .response { status := 500, body := "Error processing report\n" } ∧
    ∃ events : List Event,
      (ProcessTrivyWebhook env cfg r w).2.trace = w.trace ++ events ∧
      (∀ fs, Event.importFindings fs ∉ events) ∧
      (∀ b, Event.batchImportFindings b ∉ events) := by
  have d1 : str "InfraAssessmentReport" ≠ str "ConfigAuditReport" := by decide
  have d2 : str "ClusterComplianceReport" ≠ str "ConfigAuditReport" := by decide
  have d3 : str "ClusterComplianceReport" ≠ str "InfraAssessmentReport" := by decide
  have d4 : str "VulnerabilityReport" ≠ str "ConfigAuditReport" := by decide
  have d5 : str "VulnerabilityReport" ≠ str "InfraAssessmentReport" := by decide
  have d6 : str "VulnerabilityReport" ≠ str "ClusterComplianceReport" := by decide
  have key : ∀ mapped : GoResult (List AwsSecurityFinding) × World,
      mapped.1 = .err e →
      (∃ events : List Event,
        mapped.2.trace = (w.record (.unmarshal .webhook)).trace ++ events ∧
        (∀ fs, Event.importFindings fs ∉ events) ∧
        (∀ b, Event.batchImportFindings b ∉ events)) →
      ProcessTrivyWebhook env cfg r w = processReport env mapped →
      (ProcessTrivyWebhook env cfg r w).1
        = .response { status := 500, body := "Error processing report\n" } ∧
      ∃ events : List Event,
        (ProcessTrivyWebhook env cfg r w).2.trace = w.trace ++ events ∧
        (∀ fs, Event.importFindings fs ∉ events) ∧
        (∀ b, Event.batchImportFindings b ∉ events) := by
    intro mapped hm hev hrun
    obtain ⟨events, ht, h1, h2⟩ := hev
    rw [hrun, processReport_err env mapped e hm]
    refine ⟨rfl, Event.unmarshal .webhook :: events, ?_, ?_, ?_⟩
    · simp [ht, World.record]
    · intro fs hfs
      rcases List.mem_cons.mp hfs with h | h
      · cases h
      · exact h1 fs h
    · intro b hb
      rcases List.mem_cons.mp hb with h | h
      · cases h
      · exact h2 b h
  rcases herr with ⟨hk, hf, hm⟩ | ⟨hk, hf, hm⟩ | ⟨hk, hf, hm⟩ | ⟨hk, hf, hm⟩
  · refine key _ hm (getConfigAuditReportFindings_events env body _) ?_
    unfold ProcessTrivyWebhook
    simp [hread, hbody, hweb, hk, hf]
  · refine key _ hm (getInfraAssessmentReport_events env body _) ?_
    unfold ProcessTrivyWebhook
    simp [hread, hbody, hweb, hk, hf, d1]
  · refine key _ hm (getClusterComplianceReport_events env body _) ?_
    unfold ProcessTrivyWebhook
    simp [hread, hbody, hweb, hk, hf, d2, d3]
  · refine key _ hm (getVulnerabilityReportFindings_events env body _) ?_
    unfold ProcessTrivyWebhook
    simp [hread, hbody, hweb, hk, hf, d4, d5, d6]

/-- C11 at a ConfigAuditReport body that does not decode as one (a shape mismatch), and
at a VulnerabilityReport body when `sts.GetCallerIdentity` fails. -/
theorem C11_mapper_error_is_server_error_witness :
    ((ProcessTrivyWebhook undecodableEnv allEnabled (requestWith sampleBody) sampleWorld).1
        = .response { status := 500, body := "Error processing report\n" } ∧
      ∃ events : List Event,
        (ProcessTrivyWebhook undecodableEnv allEnabled (requestWith sampleBody)
          sampleWorld).2.trace = sampleWorld.trace ++ events ∧
        (∀ fs, Event.importFindings fs ∉ events) ∧
        (∀ b, Event.batchImportFindings b ∉ events)) ∧
    ((ProcessTrivyWebhook (noIdentityEnv (str "VulnerabilityReport")) allEnabled
          (requestWith sampleBody) sampleWorld).1
        = .response { status := 500, body := "Error processing report\n" } ∧
      ∃ events : List Event,
        (ProcessTrivyWebhook (noIdentityEnv (str "VulnerabilityReport")) allEnabled
          (requestWith sampleBody) sampleWorld).2.trace = sampleWorld.trace ++ events ∧
        (∀ fs, Event.importFindings fs ∉ events) ∧
        (∀ b, Event.batchImportFindings b ∉ events)) :=
  ⟨C11_mapper_error_is_server_error undecodableEnv allEnabled (requestWith sampleBody)
      sampleWorld sampleBody
      { Kind := str "ConfigAuditReport", APIVersion := str "aquasecurity.github.io/v1alpha1" }
      ("error decoding JSON: " ++ "json: cannot unmarshal string into Go struct field")
      rfl (by decide) rfl (Or.inl ⟨rfl, rfl, rfl⟩),
    C11_mapper_error_is_server_error (noIdentityEnv (str "VulnerabilityReport")) allEnabled
      (requestWith sampleBody) sampleWorld sampleBody
      { Kind := str "VulnerabilityReport", APIVersion := str "aquasecurity.github.io/v1alpha1" }
      ("failed to get caller identity: " ++ "operation error STS: GetCallerIdentity")
      rfl (by decide) rfl (Or.inr (Or.inr (Or.inr ⟨rfl, rfl, rfl⟩)))⟩

/-- C12: an empty body is answered 400 with the message "Empty request body" before
anything is decoded, whatever the JSON decoder would say about it; a non-empty body
that is not valid JSON is answered 400 with the message "Invalid JSON" right after the
failed decoding of the envelope; in both cases nothing is dispatched or exported, and
the two answers differ. -/
theorem C12_empty_and_invalid_bodies (env : Env) (cfg : Config) (r : Request) (w : World)
    (body : GoString) (hread : r.readAll = .ok body) :
    (body.length = 0 →
      ProcessTrivyWebhook env cfg r w
        = (.response { status := 400, body := "Empty request body\n" }, w)) ∧
    (body.length ≠ 0 → ∀ e, env.unmarshalWebhook body = .error e →
      ProcessTrivyWebhook env cfg r w
        = (.response { status := 400, body := "Invalid JSON\n" },
            w.record (.unmarshal .webhook))) ∧
    (Outcome.response { status := 400, body := "Empty request body\n" }
      ≠ Outcome.response { status := 400, body := "Invalid JSON\n" }) := by
  refine ⟨?_, ?_, by decide⟩
  · intro h0
    unfold ProcessTrivyWebhook
    simp only [hread, h0, if_true]
    rfl
  · intro h0 e he
    unfold ProcessTrivyWebhook
    simp only [hread, h0, he, if_false]
    rfl

/-- C12 at the empty body and at a body that is not JSON, in an environment whose JSON
decoder rejects both. -/
theorem C12_empty_and_invalid_bodies_witness :
    ProcessTrivyWebhook invalidJsonEnv allEnabled (requestWith []) sampleWorld
      = (.response { status := 400, body := "Empty request body\n" }, sampleWorld) ∧
    ProcessTrivyWebhook invalidJsonEnv allEnabled (requestWith sampleBody) sampleWorld
      = (.response { status := 400, body := "Invalid JSON\n" },
          sampleWorld.record (.unmarshal .webhook)) :=
  ⟨(C12_empty_and_invalid_bodies invalidJsonEnv allEnabled (requestWith []) sampleWorld []
      rfl).1 rfl,
    (C12_empty_and_invalid_bodies invalidJsonEnv allEnabled (requestWith sampleBody)
      sampleWorld sampleBody rfl).2.1 (by decide)
      "invalid character x looking for beginning of value" rfl⟩


/-! ## The findings of a report that maps -/

/-- Entries and findings at the same index are related. -/
theorem forall₂_getElem? {α β : Type} {R : α → β → Prop} {l₁ : List α} {l₂ : List β}
    (h : List.Forall₂ R l₁ l₂) :
    ∀ (i : Nat) (a : α) (b : β), l₁[i]? = some a → l₂[i]? = some b → R a b := by
  induction h with
  | nil => intro i a b ha; simp at ha
  | cons hab _ ih =>
    intro i a b ha hb
    cases i with
    | zero =>
      simp only [List.getElem?_cons_zero, Option.some.injEq] at ha hb
      subst ha
      subst hb
      exact hab
    | succ i =>
      simp only [List.getElem?_cons_succ] at ha hb
      exact ih i a b ha hb

/-- With the report decoded and the identity resolved, `getVulnerabilityReportFindings`
returns one `vulnerabilityFinding` per entry, in order. -/
theorem getVulnerabilityReportFindings_total (env : Env) (body : GoString) (w : World)
    (rep : VulnerabilityReport) (cfg : AwsConfig) (ident : CallerIdentity)
    (hrep : env.unmarshalVulnerabilityReport body = .ok rep)
    (hcfg : env.loadDefaultConfig (w.record (.unmarshal .vulnerabilityReport)) = .ok cfg)
    (hid : env.getCallerIdentity
      ((w.record (.unmarshal .vulnerabilityReport)).record .loadDefaultConfig) cfg
        = .ok ident) :
    ∃ fs, (getVulnerabilityReportFindings env body w).1 = .ok fs ∧
      List.Forall₂
        (fun v fd => ∃ t1 t2,
          fd = vulnerabilityFinding env (awsToString ident.Account) cfg.Region
            (str "arn:aws:securityhub:" ++ cfg.Region
              ++ str "::product/aquasecurity/aquasecurity")
            (mapIndex rep.Labels (str "trivy-operator.container.name"))
            rep.Report.Artifact.Tag
            (fullImageName rep.Report.Registry.Server rep.Report.Artifact.Repository
              rep.Report.Artifact.Digest rep.Report.Artifact.Tag)
            (rep.Report.Registry.Server ++ str "/" ++ rep.Report.Artifact.Repository)
            v t1 t2)
        rep.Report.Vulnerabilities fs := by
  obtain ⟨built, h1, -, hall⟩ := vulnerabilityEntries_ok env
    (awsToString ident.Account) cfg.Region
    (str "arn:aws:securityhub:" ++ cfg.Region ++ str "::product/aquasecurity/aquasecurity")
    (mapIndex rep.Labels (str "trivy-operator.container.name"))
    rep.Report.Artifact.Tag
    (fullImageName rep.Report.Registry.Server rep.Report.Artifact.Repository
      rep.Report.Artifact.Digest rep.Report.Artifact.Tag)
    (rep.Report.Registry.Server ++ str "/" ++ rep.Report.Artifact.Repository)
    rep.Report.Vulnerabilities []
    (((w.record (.unmarshal .vulnerabilityReport)).record .loadDefaultConfig).record
      .getCallerIdentity)
  simp only [List.nil_append] at h1
  refine ⟨built, ?_, hall⟩
  unfold getVulnerabilityReportFindings
  simp only [hrep, hcfg, hid, h1]

/-- With the report decoded, the identity resolved, an owner reference and a message
in every check, `getConfigAuditReportFindings` returns one `configAuditFinding` per
check, in order. -/
theorem getConfigAuditReportFindings_total (env : Env) (body : GoString) (w : World)
    (rep : ConfigAuditReport) (cfg : AwsConfig) (ident : CallerIdentity)
    (owner : OwnerReference) (owners : List OwnerReference)
    (hrep : env.unmarshalConfigAuditReport body = .ok rep)
    (hcfg : env.loadDefaultConfig (w.record (.unmarshal .configAuditReport)) = .ok cfg)
    (hid : env.getCallerIdentity
      ((w.record (.unmarshal .configAuditReport)).record .loadDefaultConfig) cfg
        = .ok ident)
    (hown : rep.OwnerReferences = owner :: owners)
    (hmsg : ∀ c ∈ rep.Report.Checks, c.Messages ≠ []) :
    ∃ fs, (getConfigAuditReportFindings env body w).1 = .ok fs ∧
      List.Forall₂
        (fun c f => ∃ t1 t2 m, c.Messages.head? = some m ∧
          f = configAuditFinding (awsToString ident.Account) cfg.Region
            (str "arn:aws:securityhub:" ++ cfg.Region
              ++ str "::product/aquasecurity/aquasecurity")
            (owner.Kind ++ str "/" ++ owner.Name) c t1 t2 m)
        rep.Report.Checks fs := by
  obtain ⟨fs, w', hrun, -⟩ := configAuditChecks_total env (awsToString ident.Account)
    cfg.Region
    (str "arn:aws:securityhub:" ++ cfg.Region ++ str "::product/aquasecurity/aquasecurity")
    (owner.Kind ++ str "/" ++ owner.Name) rep.Report.Checks []
    (((w.record (.unmarshal .configAuditReport)).record .loadDefaultConfig).record
      .getCallerIdentity) hmsg
  obtain ⟨built, hb, hall⟩ := configAuditChecks_ok env _ _ _ _ _ _ _ _ _ hrun
  simp only [List.nil_append] at hb
  subst hb
  refine ⟨fs, ?_, hall⟩
  unfold getConfigAuditReportFindings
  simp only [hrep, hcfg, hid, hown, hrun]


/-- C13: the image reference is "R/P@D" when the digest `D` is not empty, whatever the
tag, and "R/P:T" when the digest is empty, also for an empty tag, which gives "R/P:";
and the Id of every finding that `getVulnerabilityReportFindings` returns is that
reference, a dash and the vulnerability ID. -/
theorem C13_image_reference (env : Env) (body : GoString) (w : World)
    (fs : List AwsSecurityFinding) (rep : VulnerabilityReport)
    (hrep : env.unmarshalVulnerabilityReport body = .ok rep)
    (hok : (getVulnerabilityReportFindings env body w).1 = .ok fs) :
    (∀ R P D T : GoString,
      (D ≠ [] → fullImageName R P D T = R ++ str "/" ++ P ++ str "@" ++ D) ∧
      fullImageName R P [] T = R ++ str "/" ++ P ++ str ":" ++ T ∧
      fullImageName R P [] [] = R ++ str "/" ++ P ++ str ":") ∧
    List.Forall₂
      (fun (v : Vulnerability) (f : AwsSecurityFinding) =>
        (rep.Report.Artifact.Digest ≠ [] →
          f.Id = (rep.Report.Registry.Server ++ str "/" ++ rep.Report.Artifact.Repository
            ++ str "@" ++ rep.Report.Artifact.Digest) ++ str "-" ++ v.VulnerabilityID) ∧
        (rep.Report.Artifact.Digest = [] →
          f.Id = (rep.Report.Registry.Server ++ str "/" ++ rep.Report.Artifact.Repository
            ++ str ":" ++ rep.Report.Artifact.Tag) ++ str "-" ++ v.VulnerabilityID))
      rep.Report.Vulnerabilities fs := by
  constructor
  · intro R P D T
    refine ⟨fun h => ?_, ?_, ?_⟩
    · simp [fullImageName, h]
    · simp [fullImageName]
    · simp [fullImageName]
  · obtain ⟨rep', cfg, ident, hrep', hall⟩ :=
      getVulnerabilityReportFindings_ok env body w _ fs (Prod.ext hok rfl)
    rw [hrep] at hrep'
    cases hrep'
    refine hall.imp ?_
    rintro v f ⟨t1, t2, rfl⟩
    constructor
    · intro h
      simp [vulnerabilityFinding, fullImageName, h]
    · intro h
      simp [vulnerabilityFinding, fullImageName, h]

/-- C13 on the four combinations of a digest and a tag, present or not. -/
theorem C13_image_reference_witness :
    (findingsOfVulnerabilityReport
        (imageReport (str "sha256:ab") (str "1.25") [titleOnlyVulnerability])).map (fun f => f.Id)
      = [str "index.docker.io/library/nginx@sha256:ab-CVE-2024-0001"] ∧
    (findingsOfVulnerabilityReport
        (imageReport (str "sha256:ab") [] [titleOnlyVulnerability])).map (fun f => f.Id)
      = [str "index.docker.io/library/nginx@sha256:ab-CVE-2024-0001"] ∧
    (findingsOfVulnerabilityReport
        (imageReport [] (str "1.25") [titleOnlyVulnerability])).map (fun f => f.Id)
      = [str "index.docker.io/library/nginx:1.25-CVE-2024-0001"] ∧
    (findingsOfVulnerabilityReport
        (imageReport [] [] [titleOnlyVulnerability])).map (fun f => f.Id)
      = [str "index.docker.io/library/nginx:-CVE-2024-0001"] ∧
    List.Forall₂
      (fun (v : Vulnerability) (f : AwsSecurityFinding) =>
        ((imageReport [] [] [titleOnlyVulnerability]).Report.Artifact.Digest ≠ [] →
          f.Id = ((imageReport [] [] [titleOnlyVulnerability]).Report.Registry.Server
            ++ str "/" ++ (imageReport [] [] [titleOnlyVulnerability]).Report.Artifact.Repository
            ++ str "@" ++ (imageReport [] [] [titleOnlyVulnerability]).Report.Artifact.Digest)
            ++ str "-" ++ v.VulnerabilityID) ∧
        ((imageReport [] [] [titleOnlyVulnerability]).Report.Artifact.Digest = [] →
          f.Id = ((imageReport [] [] [titleOnlyVulnerability]).Report.Registry.Server
            ++ str "/" ++ (imageReport [] [] [titleOnlyVulnerability]).Report.Artifact.Repository
            ++ str ":" ++ (imageReport [] [] [titleOnlyVulnerability]).Report.Artifact.Tag)
            ++ str "-" ++ v.VulnerabilityID))
      (imageReport [] [] [titleOnlyVulnerability]).Report.Vulnerabilities
      (findingsOfVulnerabilityReport (imageReport [] [] [titleOnlyVulnerability])) :=
  ⟨by decide, by decide, by decide, by decide,
    (C13_image_reference (vulnerabilityEnv (imageReport [] [] [titleOnlyVulnerability]))
      sampleBody sampleWorld
      (findingsOfVulnerabilityReport (imageReport [] [] [titleOnlyVulnerability]))
      (imageReport [] [] [titleOnlyVulnerability]) rfl (by decide)).2⟩

/-- C14: in every finding that `getVulnerabilityReportFindings` returns, the
Description is the truncation of the title of the entry when the description of the
entry is the empty string, and the truncation of that description otherwise; so when
neither is longer than 1024 bytes it is the title, respectively the description
itself, however short. -/
theorem C14_description_falls_back_to_title (env : Env) (body : GoString) (w : World)
    (fs : List AwsSecurityFinding) (rep : VulnerabilityReport)
    (hrep : env.unmarshalVulnerabilityReport body = .ok rep)
    (hok : (getVulnerabilityReportFindings env body w).1 = .ok fs) :
    List.Forall₂
      (fun (v : Vulnerability) (f : AwsSecurityFinding) =>
        (v.Description = [] → f.Description = truncateDescription v.Title) ∧
        (v.Description ≠ [] → f.Description = truncateDescription v.Description) ∧
        (v.Description = [] → v.Title.length ≤ 1024 → f.Description = v.Title) ∧
        (v.Description ≠ [] → v.Description.length ≤ 1024 → f.Description = v.Description))
      rep.Report.Vulnerabilities fs := by
  obtain ⟨rep', cfg, ident, hrep', hall⟩ :=
    getVulnerabilityReportFindings_ok env body w _ fs (Prod.ext hok rfl)
  rw [hrep] at hrep'
  cases hrep'
  refine hall.imp ?_
  rintro v f ⟨t1, t2, rfl⟩
  refine ⟨fun h => ?_, fun h => ?_, fun h hl => ?_, fun h hl => ?_⟩
  · simp [vulnerabilityFinding, h]
  · simp [vulnerabilityFinding, h]
  · simp only [vulnerabilityFinding, h, if_true]
    exact (truncateDescription_spec v.Title).2.2 hl
  · simp only [vulnerabilityFinding, h, if_false]
    exact (truncateDescription_spec v.Description).2.2 hl

/-- C14 on an entry without description and an entry whose description is one space. -/
theorem C14_description_falls_back_to_title_witness :
    (findingsOfVulnerabilityReport
        (imageReport [] (str "1.25") [titleOnlyVulnerability, spaceVulnerability])).map
        (fun f => f.Description)
      = [str "openssl: overflow", str " "] ∧
    List.Forall₂
      (fun (v : Vulnerability) (f : AwsSecurityFinding) =>
        (v.Description = [] → f.Description = truncateDescription v.Title) ∧
        (v.Description ≠ [] → f.Description = truncateDescription v.Description) ∧
        (v.Description = [] → v.Title.length ≤ 1024 → f.Description = v.Title) ∧
        (v.Description ≠ [] → v.Description.length ≤ 1024 → f.Description = v.Description))
      (imageReport [] (str "1.25")
        [titleOnlyVulnerability, spaceVulnerability]).Report.Vulnerabilities
      (findingsOfVulnerabilityReport
        (imageReport [] (str "1.25") [titleOnlyVulnerability, spaceVulnerability])) :=
  ⟨by decide,
    C14_description_falls_back_to_title
      (vulnerabilityEnv (imageReport [] (str "1.25") [titleOnlyVulnerability, spaceVulnerability]))
      sampleBody sampleWorld
      (findingsOfVulnerabilityReport
        (imageReport [] (str "1.25") [titleOnlyVulnerability, spaceVulnerability]))
      (imageReport [] (str "1.25") [titleOnlyVulnerability, spaceVulnerability]) rfl
      (by decide)⟩


/-- C15: for a VulnerabilityReport that decodes, with identity resolution succeeding,
`getVulnerabilityReportFindings` returns one finding per entry, in the order of the
entries; the finding of an entry has the image reference, a dash and the vulnerability
ID as its Id, one resource of type "Container" with the id "registry/repository", and,
when the description of the entry is empty, the title cut by the 1021-bytes-and-dots
rule as its Description. -/
theorem C15_vulnerability_findings (env : Env) (body : GoString) (w : World)
    (rep : VulnerabilityReport) (cfg : AwsConfig) (ident : CallerIdentity)
    (hrep : env.unmarshalVulnerabilityReport body = .ok rep)
    (hcfg : env.loadDefaultConfig (w.record (.unmarshal .vulnerabilityReport)) = .ok cfg)
    (hid : env.getCallerIdentity
      ((w.record (.unmarshal .vulnerabilityReport)).record .loadDefaultConfig) cfg
        = .ok ident) :
    ∃ fs, (getVulnerabilityReportFindings env body w).1 = .ok fs ∧
      fs.length = rep.Report.Vulnerabilities.length ∧
      List.Forall₂
        (fun (v : Vulnerability) (f : AwsSecurityFinding) =>
          f.Id = (if rep.Report.Artifact.Digest = []
              then rep.Report.Registry.Server ++ str "/" ++ rep.Report.Artifact.Repository
                ++ str ":" ++ rep.Report.Artifact.Tag
              else rep.Report.Registry.Server ++ str "/" ++ rep.Report.Artifact.Repository
                ++ str "@" ++ rep.Report.Artifact.Digest)
            ++ str "-" ++ v.VulnerabilityID ∧
          f.Resources.map (fun res => (res.Type', res.Id))
            = [(str "Container",
                rep.Report.Registry.Server ++ str "/" ++ rep.Report.Artifact.Repository)] ∧
          (v.Description = [] →
            f.Description =
              (if v.Title.length > 1024 then v.Title.take 1021 ++ str "..." else v.Title)))
        rep.Report.Vulnerabilities fs := by
  obtain ⟨fs, hfs, hall⟩ :=
    getVulnerabilityReportFindings_total env body w rep cfg ident hrep hcfg hid
  refine ⟨fs, hfs, hall.length_eq.symm, hall.imp ?_⟩
  rintro v f ⟨t1, t2, rfl⟩
  refine ⟨?_, rfl, fun h => ?_⟩
  · by_cases hd : rep.Report.Artifact.Digest = [] <;>
      simp [vulnerabilityFinding, fullImageName, hd]
  · simp [vulnerabilityFinding, h, truncateDescription]

/-- C15 on a report with two entries, the first without description. -/
theorem C15_vulnerability_findings_witness :
    ∃ fs, (getVulnerabilityReportFindings (sampleEnv (str "VulnerabilityReport")) sampleBody
        sampleWorld).1 = .ok fs ∧
      fs.length = sampleVulnerabilityReport.Report.Vulnerabilities.length ∧
      List.Forall₂
        (fun (v : Vulnerability) (f : AwsSecurityFinding) =>
          f.Id = (if sampleVulnerabilityReport.Report.Artifact.Digest = []
              then sampleVulnerabilityReport.Report.Registry.Server ++ str "/"
                ++ sampleVulnerabilityReport.Report.Artifact.Repository
                ++ str ":" ++ sampleVulnerabilityReport.Report.Artifact.Tag
              else sampleVulnerabilityReport.Report.Registry.Server ++ str "/"
                ++ sampleVulnerabilityReport.Report.Artifact.Repository
                ++ str "@" ++ sampleVulnerabilityReport.Report.Artifact.Digest)
            ++ str "-" ++ v.VulnerabilityID ∧
          f.Resources.map (fun res => (res.Type', res.Id))
            = [(str "Container",
                sampleVulnerabilityReport.Report.Registry.Server ++ str "/"
                  ++ sampleVulnerabilityReport.Report.Artifact.Repository)] ∧
          (v.Description = [] →
            f.Description =
              (if v.Title.length > 1024 then v.Title.take 1021 ++ str "..." else v.Title)))
        sampleVulnerabilityReport.Report.Vulnerabilities fs :=
  C15_vulnerability_findings (sampleEnv (str "VulnerabilityReport")) sampleBody sampleWorld
    sampleVulnerabilityReport { Region := str "eu-west-1" }
    { Account := some (str "123456789012") } rfl rfl rfl

/-- C16: for a ConfigAuditReport that decodes, with identity resolution succeeding, at
least one owner reference and at least one message in every check,
`getConfigAuditReportFindings` returns one finding per check, in the order of the
checks; the finding of a check has the Id "check ID, dash, owner kind/owner name" with
the first owner reference, one resource of type "Other" whose id is "owner kind/owner
name" and whose details are the single key "Message" with the first message of the
check, the remediation of the check as remediation text with no URL, and the record
state active. -/
theorem C16_config_audit_findings (env : Env) (body : GoString) (w : World)
    (rep : ConfigAuditReport) (cfg : AwsConfig) (ident : CallerIdentity)
    (owner : OwnerReference) (owners : List OwnerReference)
    (hrep : env.unmarshalConfigAuditReport body = .ok rep)
    (hcfg : env.loadDefaultConfig (w.record (.unmarshal .configAuditReport)) = .ok cfg)
    (hid : env.getCallerIdentity
      ((w.record (.unmarshal .configAuditReport)).record .loadDefaultConfig) cfg
        = .ok ident)
    (hown : rep.OwnerReferences = owner :: owners)
    (hmsg : ∀ c ∈ rep.Report.Checks, c.Messages ≠ []) :
    ∃ fs, (getConfigAuditReportFindings env body w).1 = .ok fs ∧
      fs.length = rep.Report.Checks.length ∧
      List.Forall₂
        (fun (c : Check) (f : AwsSecurityFinding) =>
          f.Id = c.ID ++ str "-" ++ (owner.Kind ++ str "/" ++ owner.Name) ∧
          f.Resources.map (fun res => (res.Type', res.Id))
            = [(str "Other", owner.Kind ++ str "/" ++ owner.Name)] ∧
          (∃ m, c.Messages.head? = some m ∧
            f.Resources.map (fun res => res.Details.Other) = [[(str "Message", m)]]) ∧
          f.Remediation.Recommendation.Text = c.Remediation ∧
          f.Remediation.Recommendation.Url = none ∧
          f.RecordState = RecordStateActive)
        rep.Report.Checks fs := by
  obtain ⟨fs, hfs, hall⟩ :=
    getConfigAuditReportFindings_total env body w rep cfg ident owner owners hrep hcfg hid
      hown hmsg
  refine ⟨fs, hfs, hall.length_eq.symm, hall.imp ?_⟩
  rintro c f ⟨t1, t2, m, hm, rfl⟩
  exact ⟨rfl, rfl, ⟨m, hm, rfl⟩, rfl, rfl, rfl⟩

/-- C16 on a report with one owner reference and two checks. -/
theorem C16_config_audit_findings_witness :
    ∃ fs, (getConfigAuditReportFindings (sampleEnv (str "ConfigAuditReport")) sampleBody
        sampleWorld).1 = .ok fs ∧
      fs.length = sampleConfigAuditReport.Report.Checks.length ∧
      List.Forall₂
        (fun (c : Check) (f : AwsSecurityFinding) =>
          f.Id = c.ID ++ str "-" ++ (str "ReplicaSet" ++ str "/" ++ str "web") ∧
          f.Resources.map (fun res => (res.Type', res.Id))
            = [(str "Other", str "ReplicaSet" ++ str "/" ++ str "web")] ∧
          (∃ m, c.Messages.head? = some m ∧
            f.Resources.map (fun res => res.Details.Other) = [[(str "Message", m)]]) ∧
          f.Remediation.Recommendation.Text = c.Remediation ∧
          f.Remediation.Recommendation.Url = none ∧
          f.RecordState = RecordStateActive)
        sampleConfigAuditReport.Report.Checks fs :=
  C16_config_audit_findings (sampleEnv (str "ConfigAuditReport")) sampleBody sampleWorld
    sampleConfigAuditReport { Region := str "eu-west-1" }
    { Account := some (str "123456789012") }
    { Kind := str "ReplicaSet", Name := str "web" } [] rfl rfl rfl rfl (by decide)


/-- An enabled `case` whose mapper returns findings hands them to the exporter. -/
theorem processReport_ok (env : Env) (mapped : GoResult (List AwsSecurityFinding) × World)
    (fs : List AwsSecurityFinding) (h : mapped.1 = .ok fs) :
    processReport env mapped = sendFindings env fs mapped.2 := by
  obtain ⟨res, w1⟩ := mapped
  simp only at h
  subst h
  rfl

/-- C17: a body that decodes as an InfraAssessmentReport or as a
ClusterComplianceReport (and that `json.MarshalIndent` encodes again for the log)
makes `getInfraAssessmentReport`, respectively `getClusterComplianceReport`, return
success with an empty list of findings, whatever the report holds; an enabled request of these kinds therefore enters the exporter with
an empty list, submits no batch and, the export succeeding, is answered 200. -/
theorem C17_stub_mappers_return_nothing (env : Env) (cfg : Config) (r : Request) (w : World)
    (body : GoString) (report : webhook) :
    (∀ rep out, env.unmarshalInfraAssessmentReport body = .ok rep →
      env.marshalIndentInfraAssessmentReport rep = .ok out →
      (getInfraAssessmentReport env body w).1 = .ok []) ∧
    (∀ rep out, env.unmarshalClusterComplianceReport body = .ok rep →
      env.marshalIndentClusterComplianceReport rep = .ok out →
      (getClusterComplianceReport env body w).1 = .ok []) ∧
    (r.readAll = .ok body → body.length ≠ 0 → env.unmarshalWebhook body = .ok report →
      ((report.Kind = str "InfraAssessmentReport" ∧ cfg.InfraAssessmentEnable = true ∧
          ∃ rep out, env.unmarshalInfraAssessmentReport body = .ok rep ∧
            env.marshalIndentInfraAssessmentReport rep = .ok out) ∨
        (report.Kind = str "ClusterComplianceReport" ∧ cfg.ClusterComplianceEnable = true ∧
          ∃ rep out, env.unmarshalClusterComplianceReport body = .ok rep ∧
            env.marshalIndentClusterComplianceReport rep = .ok out)) →
      (∀ w' : World, ∃ c, env.loadDefaultConfig (w'.record (.importFindings [])) = .ok c) →
      (ProcessTrivyWebhook env cfg r w).1
          = .response
              { status := 200
                body := "Vulnerabilities processed and imported to Security Hub" } ∧
        ∃ events : List Event,
          (ProcessTrivyWebhook env cfg r w).2.trace = w.trace ++ events ∧
          Event.importFindings [] ∈ events ∧
          (∀ fs, Event.importFindings fs ∈ events → fs = []) ∧
          (∀ b, Event.batchImportFindings b ∉ events)) := by
  have d1 : str "InfraAssessmentReport" ≠ str "ConfigAuditReport" := by decide
  have d2 : str "ClusterComplianceReport" ≠ str "ConfigAuditReport" := by decide
  have d3 : str "ClusterComplianceReport" ≠ str "InfraAssessmentReport" := by decide
  have hinfra : ∀ (w0 : World) rep out, env.unmarshalInfraAssessmentReport body = .ok rep →
      env.marshalIndentInfraAssessmentReport rep = .ok out →
      getInfraAssessmentReport env body w0
        = (.ok [], (w0.record (.unmarshal .infraAssessmentReport)).record
            (.marshalIndent .infraAssessmentReport)) := by
    intro w0 rep out h1 h2
    unfold getInfraAssessmentReport
    simp only [h1, h2]
  have hcluster : ∀ (w0 : World) rep out, env.unmarshalClusterComplianceReport body = .ok rep →
      env.marshalIndentClusterComplianceReport rep = .ok out →
      getClusterComplianceReport env body w0
        = (.ok [], (w0.record (.unmarshal .clusterComplianceReport)).record
            (.marshalIndent .clusterComplianceReport)) := by
    intro w0 rep out h1 h2
    unfold getClusterComplianceReport
    simp only [h1, h2]
  refine ⟨fun rep out h1 h2 => by rw [hinfra w rep out h1 h2],
    fun rep out h1 h2 => by rw [hcluster w rep out h1 h2], ?_⟩
  intro hread hbody hweb hk hexp
  rcases hk with ⟨hk, hf, rep, out, h1, h2⟩ | ⟨hk, hf, rep, out, h1, h2⟩
  · have hrun : ProcessTrivyWebhook env cfg r w
        = sendFindings env [] (((w.record (.unmarshal .webhook)).record
            (.unmarshal .infraAssessmentReport)).record (.marshalIndent .infraAssessmentReport)) := by
      unfold ProcessTrivyWebhook
      simp only [hread, hbody, hweb, hk, hf, d1, if_true, if_false]
      rw [hinfra _ rep out h1 h2]
      rfl
    obtain ⟨c, hc⟩ := hexp (((w.record (.unmarshal .webhook)).record
      (.unmarshal .infraAssessmentReport)).record (.marshalIndent .infraAssessmentReport))
    rw [hrun, sendFindings_nil, hc]
    exact ⟨rfl, [.unmarshal .webhook, .unmarshal .infraAssessmentReport,
      .marshalIndent .infraAssessmentReport, .importFindings [], .loadDefaultConfig],
      by simp [World.record], by simp, by simp, by simp⟩
  · have hrun : ProcessTrivyWebhook env cfg r w
        = sendFindings env [] (((w.record (.unmarshal .webhook)).record
            (.unmarshal .clusterComplianceReport)).record
              (.marshalIndent .clusterComplianceReport)) := by
      unfold ProcessTrivyWebhook
      simp only [hread, hbody, hweb, hk, hf, d2, d3, if_true, if_false]
      rw [hcluster _ rep out h1 h2]
      rfl
    obtain ⟨c, hc⟩ := hexp (((w.record (.unmarshal .webhook)).record
      (.unmarshal .clusterComplianceReport)).record (.marshalIndent .clusterComplianceReport))
    rw [hrun, sendFindings_nil, hc]
    exact ⟨rfl, [.unmarshal .webhook, .unmarshal .clusterComplianceReport,
      .marshalIndent .clusterComplianceReport, .importFindings [], .loadDefaultConfig],
      by simp [World.record], by simp, by simp, by simp⟩


/-- C17 on an enabled InfraAssessmentReport and an enabled ClusterComplianceReport. -/
theorem C17_stub_mappers_return_nothing_witness :
    (getInfraAssessmentReport (sampleEnv (str "InfraAssessmentReport")) sampleBody
        sampleWorld).1 = .ok [] ∧
    (getClusterComplianceReport (sampleEnv (str "ClusterComplianceReport")) sampleBody
        sampleWorld).1 = .ok [] ∧
    ((ProcessTrivyWebhook (sampleEnv (str "InfraAssessmentReport")) allEnabled
          (requestWith sampleBody) sampleWorld).1
        = .response
            { status := 200
              body := "Vulnerabilities processed and imported to Security Hub" } ∧
      ∃ events : List Event,
        (ProcessTrivyWebhook (sampleEnv (str "InfraAssessmentReport")) allEnabled
          (requestWith sampleBody) sampleWorld).2.trace = sampleWorld.trace ++ events ∧
        Event.importFindings [] ∈ events ∧
        (∀ fs, Event.importFindings fs ∈ events → fs = []) ∧
        (∀ b, Event.batchImportFindings b ∉ events)) :=
  ⟨(C17_stub_mappers_return_nothing (sampleEnv (str "InfraAssessmentReport")) allEnabled
      (requestWith sampleBody) sampleWorld sampleBody
      { Kind := str "InfraAssessmentReport",
        APIVersion := str "aquasecurity.github.io/v1alpha1" }).1
      { Name := str "infra", Report := { Checks := [highCheck] } } (str "report") rfl rfl,
    (C17_stub_mappers_return_nothing (sampleEnv (str "ClusterComplianceReport")) allEnabled
      (requestWith sampleBody) sampleWorld sampleBody
      { Kind := str "ClusterComplianceReport",
        APIVersion := str "aquasecurity.github.io/v1alpha1" }).2.1
      { Name := str "cis", Spec := str "spec", Status := str "status" } (str "report") rfl rfl,
    (C17_stub_mappers_return_nothing (sampleEnv (str "InfraAssessmentReport")) allEnabled
      (requestWith sampleBody) sampleWorld sampleBody
      { Kind := str "InfraAssessmentReport",
        APIVersion := str "aquasecurity.github.io/v1alpha1" }).2.2
      rfl (by decide) rfl
      (Or.inl ⟨rfl, rfl, { Name := str "infra", Report := { Checks := [highCheck] } },
        str "report", rfl, rfl⟩)
      (fun _ => ⟨{ Region := str "eu-west-1" }, rfl⟩)⟩

/-- C18: among the findings that a mapper returns for one report, the findings of
two entries have the same Id exactly when the two entries have the same identifier:
the vulnerability ID for `getVulnerabilityReportFindings`, whatever the package and
its version, and the check ID for `getConfigAuditReportFindings`. -/
theorem C18_same_id_iff_same_entry_id (env : Env) (body : GoString) (w : World)
    (fs : List AwsSecurityFinding) :
    (∀ rep, env.unmarshalVulnerabilityReport body = .ok rep →
      (getVulnerabilityReportFindings env body w).1 = .ok fs →
      ∀ (i j : Nat) (v₁ v₂ : Vulnerability) (f₁ f₂ : AwsSecurityFinding),
        rep.Report.Vulnerabilities[i]? = some v₁ → rep.Report.Vulnerabilities[j]? = some v₂ →
        fs[i]? = some f₁ → fs[j]? = some f₂ →
        (f₁.Id = f₂.Id ↔ v₁.VulnerabilityID = v₂.VulnerabilityID)) ∧
    (∀ rep, env.unmarshalConfigAuditReport body = .ok rep →
      (getConfigAuditReportFindings env body w).1 = .ok fs →
      ∀ (i j : Nat) (c₁ c₂ : Check) (f₁ f₂ : AwsSecurityFinding),
        rep.Report.Checks[i]? = some c₁ → rep.Report.Checks[j]? = some c₂ →
        fs[i]? = some f₁ → fs[j]? = some f₂ →
        (f₁.Id = f₂.Id ↔ c₁.ID = c₂.ID)) := by
  constructor
  · intro rep hrep hok i j v₁ v₂ f₁ f₂ hv₁ hv₂ hf₁ hf₂
    obtain ⟨rep', cfg, ident, hrep', hall⟩ :=
      getVulnerabilityReportFindings_ok env body w _ fs (Prod.ext hok rfl)
    rw [hrep] at hrep'
    cases hrep'
    obtain ⟨t1, t2, rfl⟩ := forall₂_getElem? hall i v₁ f₁ hv₁ hf₁
    obtain ⟨t3, t4, rfl⟩ := forall₂_getElem? hall j v₂ f₂ hv₂ hf₂
    simp [vulnerabilityFinding]
  · intro rep hrep hok i j c₁ c₂ f₁ f₂ hc₁ hc₂ hf₁ hf₂
    obtain ⟨rep', cfg, ident, owner, owners, hrep', -, hall⟩ :=
      getConfigAuditReportFindings_ok env body w _ fs (Prod.ext hok rfl)
    rw [hrep] at hrep'
    cases hrep'
    obtain ⟨t1, t2, m, -, rfl⟩ := forall₂_getElem? hall i c₁ f₁ hc₁ hf₁
    obtain ⟨t3, t4, m', -, rfl⟩ := forall₂_getElem? hall j c₂ f₂ hc₂ hf₂
    simp only [configAuditFinding]
    rw [List.append_left_inj, List.append_left_inj]

set_option maxRecDepth 100000 in
/-- C18 on a report in which the same CVE is found in two packages: the two findings
have the same Id; and on the two checks of the sample ConfigAuditReport, whose Ids
differ as their check IDs do. -/
theorem C18_same_id_iff_same_entry_id_witness :
    (findingsOfVulnerabilityReport
        (imageReport [] (str "1.25")
          [titleOnlyVulnerability, samePackageElsewhere, longVulnerability])).map
        (fun f => f.Id)
      = [str "index.docker.io/library/nginx:1.25-CVE-2024-0001",
         str "index.docker.io/library/nginx:1.25-CVE-2024-0001",
         str "index.docker.io/library/nginx:1.25-CVE-2024-0002"] ∧
    (∀ f₁ f₂ : AwsSecurityFinding,
      (findingsOfVulnerabilityReport
        (imageReport [] (str "1.25")
          [titleOnlyVulnerability, samePackageElsewhere, longVulnerability]))[0]? = some f₁ →
      (findingsOfVulnerabilityReport
        (imageReport [] (str "1.25")
          [titleOnlyVulnerability, samePackageElsewhere, longVulnerability]))[1]? = some f₂ →
      (f₁.Id = f₂.Id ↔
        titleOnlyVulnerability.VulnerabilityID = samePackageElsewhere.VulnerabilityID)) ∧
    (∀ f₁ f₂ : AwsSecurityFinding,
      (findingsOfConfigAuditReport sampleConfigAuditReport)[0]? = some f₁ →
      (findingsOfConfigAuditReport sampleConfigAuditReport)[1]? = some f₂ →
      (f₁.Id = f₂.Id ↔ longCheck.ID = highCheck.ID)) :=
  ⟨by decide,
    fun f₁ f₂ =>
      (C18_same_id_iff_same_entry_id
        (vulnerabilityEnv (imageReport [] (str "1.25")
          [titleOnlyVulnerability, samePackageElsewhere, longVulnerability]))
        sampleBody sampleWorld
        (findingsOfVulnerabilityReport (imageReport [] (str "1.25")
          [titleOnlyVulnerability, samePackageElsewhere, longVulnerability]))).1
        (imageReport [] (str "1.25")
          [titleOnlyVulnerability, samePackageElsewhere, longVulnerability])
        rfl (by decide) 0 1 titleOnlyVulnerability samePackageElsewhere f₁ f₂ rfl rfl,
    fun f₁ f₂ =>
      (C18_same_id_iff_same_entry_id (configAuditEnv sampleConfigAuditReport) sampleBody
        sampleWorld (findingsOfConfigAuditReport sampleConfigAuditReport)).2
        sampleConfigAuditReport rfl (by decide) 0 1 longCheck highCheck f₁ f₂ rfl rfl⟩


/-! ## Truncation and UTF-8 -/

/-- Reading two strings one after the other. -/
theorem utf8Run_append (xs ys : GoString) :
    ∀ st, utf8Run st (xs ++ ys) = (utf8Run st xs).bind fun st' => utf8Run st' ys := by
  induction xs with
  | nil => intro st; rfl
  | cons b bs ih =>
    intro st
    simp only [List.cons_append, utf8Run]
    cases utf8Step st b with
    | none => rfl
    | some st' => exact ih st'

/-- The three dots can only be read at a character boundary, and leave one. -/
theorem utf8Run_dots (st : Utf8State) :
    utf8Run st (str "...") = if st = .start then some .start else none := by
  cases st <;> decide

/-- Appending the three dots keeps a string as well-formed as it was. -/
theorem validString_append_dots (xs : GoString) :
    ValidString (xs ++ str "...") = ValidString xs := by
  unfold ValidString
  rw [utf8Run_append]
  cases h : utf8Run .start xs with
  | none => simp
  | some st =>
    simp only [Option.bind_some, utf8Run_dots]
    cases st <;> simp

/-- The truncation of a well-formed description is well-formed when the description is
short, and otherwise as its first 1021 bytes are. -/
theorem validString_truncateDescription (D : GoString) (hD : ValidString D = true) :
    (D.length ≤ 1024 → ValidString (truncateDescription D) = true) ∧
    (D.length > 1024 →
      ValidString (truncateDescription D) = ValidString (D.take 1021)) := by
  constructor
  · intro h
    rw [(truncateDescription_spec D).2.2 h]
    exact hD
  · intro h
    rw [((truncateDescription_spec D).2.1 h).1, validString_append_dots]

set_option maxRecDepth 100000 in
/-- C19, the claim as stated fails: the description is well-formed UTF-8, and the
Description of the finding that either mapper returns for it is not: the cut at byte
1021 keeps the first byte of a two-byte character and drops the second. -/
theorem C19_truncation_splits_character_counterexample :
    ValidString accentedDescription = true ∧
    (∃ f, (getConfigAuditReportFindings
          (configAuditEnv { sampleConfigAuditReport with Report := { Checks := [accentedCheck] } })
          sampleBody sampleWorld).1 = .ok [f] ∧
        f.Description = List.replicate 1020 97 ++ [0xC3] ++ str "..." ∧
        ValidString f.Description = false) ∧
    (∃ f, (getVulnerabilityReportFindings
          (vulnerabilityEnv (imageReport [] (str "1.25") [accentedVulnerability]))
          sampleBody sampleWorld).1 = .ok [f] ∧
        f.Description = List.replicate 1020 97 ++ [0xC3] ++ str "..." ∧
        ValidString f.Description = false) :=
  ⟨by decide,
    ⟨configAuditFinding (str "123456789012") (str "eu-west-1")
        (str "arn:aws:securityhub:eu-west-1::product/aquasecurity/aquasecurity")
        (str "ReplicaSet/web") accentedCheck (str "2024-01-01T00:00:00Z")
        (str "2024-01-01T00:00:00Z") (str "container web should set runAsNonRoot"),
      by decide, by decide, by decide⟩,
    ⟨vulnerabilityFinding (sampleEnv []) (str "123456789012") (str "eu-west-1")
        (str "arn:aws:securityhub:eu-west-1::product/aquasecurity/aquasecurity")
        (str "nginx") (str "1.25") (str "index.docker.io/library/nginx:1.25")
        (str "index.docker.io/library/nginx") accentedVulnerability
        (str "2024-01-01T00:00:00Z") (str "2024-01-01T00:00:00Z"),
      by decide, by decide, by decide⟩⟩


/-- C19, amended: when the description handed to the truncation step (the check
description, or the vulnerability description replaced by the title when empty) is
well-formed UTF-8, the Description of the finding that a mapper returns is well-formed
UTF-8 if the description has at most 1024 bytes, and otherwise exactly if its first
1021 bytes are, that is if byte offset 1021 is a character boundary. -/
theorem C19_truncation_keeps_utf8_at_boundary (env : Env) (body : GoString) (w : World)
    (fs : List AwsSecurityFinding) :
    (∀ rep, env.unmarshalConfigAuditReport body = .ok rep →
      (getConfigAuditReportFindings env body w).1 = .ok fs →
      List.Forall₂
        (fun (c : Check) (f : AwsSecurityFinding) =>
          ValidString c.Description = true →
            (c.Description.length ≤ 1024 → ValidString f.Description = true) ∧
            (c.Description.length > 1024 →
              ValidString f.Description = ValidString (c.Description.take 1021)))
        rep.Report.Checks fs) ∧
    (∀ rep, env.unmarshalVulnerabilityReport body = .ok rep →
      (getVulnerabilityReportFindings env body w).1 = .ok fs →
      List.Forall₂
        (fun (v : Vulnerability) (f : AwsSecurityFinding) =>
          ValidString (if v.Description = [] then v.Title else v.Description) = true →
            ((if v.Description = [] then v.Title else v.Description).length ≤ 1024 →
              ValidString f.Description = true) ∧
            ((if v.Description = [] then v.Title else v.Description).length > 1024 →
              ValidString f.Description
                = ValidString
                    ((if v.Description = [] then v.Title else v.Description).take 1021)))
        rep.Report.Vulnerabilities fs) := by
  constructor
  · intro rep hrep h
    obtain ⟨rep', cfg, ident, owner, owners, hrep', -, hall⟩ :=
      getConfigAuditReportFindings_ok env body w _ fs (Prod.ext h rfl)
    rw [hrep] at hrep'
    cases hrep'
    refine hall.imp ?_
    rintro c f ⟨t1, t2, m, -, rfl⟩ hv
    exact validString_truncateDescription c.Description hv
  · intro rep hrep h
    obtain ⟨rep', cfg, ident, hrep', hall⟩ :=
      getVulnerabilityReportFindings_ok env body w _ fs (Prod.ext h rfl)
    rw [hrep] at hrep'
    cases hrep'
    refine hall.imp ?_
    rintro v f ⟨t1, t2, rfl⟩ hv
    exact validString_truncateDescription
      (if v.Description = [] then v.Title else v.Description) hv

set_option maxRecDepth 100000 in
/-- C19, amended, on the sample ConfigAuditReport: the 1030 ASCII bytes of the first
check are cut at a character boundary, the second description is short, and both
Descriptions are well-formed. -/
theorem C19_truncation_keeps_utf8_at_boundary_witness :
    List.Forall₂
      (fun (c : Check) (f : AwsSecurityFinding) =>
        ValidString c.Description = true →
          (c.Description.length ≤ 1024 → ValidString f.Description = true) ∧
          (c.Description.length > 1024 →
            ValidString f.Description = ValidString (c.Description.take 1021)))
      [longCheck, highCheck] sampleConfigAuditFindings ∧
    sampleConfigAuditFindings.map (fun f => ValidString f.Description) = [true, true] :=
  ⟨(C19_truncation_keeps_utf8_at_boundary (sampleEnv (str "ConfigAuditReport")) sampleBody
      sampleWorld sampleConfigAuditFindings).1 sampleConfigAuditReport rfl (by decide),
    by decide⟩

/-- C20: the truncation step is idempotent: applied to its own output it returns that
output; so a check, or a vulnerability, whose description is the Description of a
finding already made from it gets a finding with that same Description. -/
theorem C20_truncation_idempotent (env : Env) (D : GoString)
    (a r p n c t f i t1 t2 t3 t4 m m' : GoString) (check : Check) (v : Vulnerability) :
    truncateDescription (truncateDescription D) = truncateDescription D ∧
    (if (truncateDescription D).length > 1024
        then (truncateDescription D).take 1021 ++ str "..." else truncateDescription D)
      = truncateDescription D ∧
    (configAuditFinding a r p n
        { check with Description := (configAuditFinding a r p n check t1 t2 m).Description }
        t3 t4 m').Description
      = (configAuditFinding a r p n check t1 t2 m).Description ∧
    (vulnerabilityFinding env a r p c t f i
        { v with Description := (vulnerabilityFinding env a r p c t f i v t1 t2).Description }
        t3 t4).Description
      = (vulnerabilityFinding env a r p c t f i v t1 t2).Description := by
  have idem : ∀ E : GoString, truncateDescription (truncateDescription E)
      = truncateDescription E :=
    fun E => (truncateDescription_spec (truncateDescription E)).2.2
      (truncateDescription_spec E).1
  have nil_of : ∀ E : GoString, truncateDescription E = [] → E = [] := by
    intro E h
    by_cases hl : E.length > 1024
    · have := ((truncateDescription_spec E).2.1 hl).2
      rw [h] at this
      simp at this
    · rw [(truncateDescription_spec E).2.2 (by omega)] at h
      exact h
  refine ⟨idem D, idem D, idem check.Description, ?_⟩
  simp only [vulnerabilityFinding]
  by_cases hd : v.Description = []
  · simp only [hd, if_true]
    by_cases ht : truncateDescription v.Title = []
    · simp only [ht, if_true]
    · simp only [ht, if_false]
      exact idem v.Title
  · simp only [hd, if_false]
    by_cases ht : truncateDescription v.Description = []
    · exact absurd (nil_of _ ht) hd
    · simp only [ht, if_false]
      exact idem v.Description

end TrivyWebhook
